import Mathlib

/-!
Verification of the Bull game backend (TypeScript) against its
natural-language specification.

The TypeScript source is shallowly embedded:

* JS objects used as string-keyed maps (`playerAnswers`, `votes`,
  `pointsAwarded`, `confusionResults`, ...) become insertion-ordered
  association lists `List (String × α)` handled by `objGet` / `objSet`
  (JS objects have unique keys; assignment to an existing key keeps its
  position, assignment to a new key appends).
* JS numbers become `Int` (scores, points), `Nat` (counters, rounds) or
  `ℚ` (the selection-probability factors, which the source manipulates
  with `+ * / min max`).
* `Math.random()` draws and `generateUUID()` results are oracle
  parameters (`rnd : Nat → Nat`, `uuid : Nat → String`, `q : ℚ`).
* `Date` timestamps become `Nat` parameters (`now`).
* Methods that mutate `this`/their argument and possibly `throw` become
  functions returning the updated state, with `Except` for the thrown
  error; a method that mutates before throwing returns the mutated state
  alongside the error.
* In the source, `Lobby.teams.blue/red` and `Round.selectedPlayers` hold
  *references* to the very `Player` objects stored in `Lobby.players`.
  The embedding makes this aliasing explicit by storing player *ids* in
  team lists and selections, resolving through `Lobby.players`.
-/

namespace Bull

/-- `type Team = 'blue' | 'red'` from `types/index.ts`. -/
inductive Team
| blue
| red
deriving DecidableEq, Repr

/-- `type LobbyStatus = 'waiting' | 'playing' | 'finished'`. -/
inductive LobbyStatus
| waiting
| playing
| finished
deriving DecidableEq, Repr

/-- `type RoundStatus = 'answering' | 'voting' | 'finished'`. -/
inductive RoundStatus
| answering
| voting
| finished
deriving DecidableEq, Repr

/-- `type GamePhase = 'waiting' | 'writing' | 'voting' | 'results' | 'finished'`. -/
inductive GamePhase
| waiting
| writing
| voting
| results
| finished
deriving DecidableEq, Repr

/-- `type OptionOrigin` from `types/index.ts`. -/
inductive OptionOrigin
| correct
| incorrect
| player (playerId : String)
deriving DecidableEq, Repr

/-- `interface Player` from `types/index.ts`. -/
structure Player where
  id : String
  name : String
  team : Option Team
  isHost : Bool
  socketId : String
  score : Int
  isReady : Bool
  isConnected : Bool
deriving DecidableEq, Repr

/-- `interface GameSettings` from `types/index.ts`. -/
structure GameSettings where
  maxRounds : Nat
  answerTimeSeconds : Nat
  voteTimeSeconds : Nat
  pointsCorrectAnswer : Int
  pointsConfuseOpponent : Int
deriving DecidableEq, Repr

/-- `interface RoundOption` from `types/index.ts`. -/
structure RoundOption where
  id : String
  text : String
  origin : OptionOrigin
  position : Nat
deriving DecidableEq, Repr

/-- The ids of the two selected players of a round (the source stores the
`Player` objects themselves; they alias entries of `lobby.players`). -/
structure SelectedPlayers where
  blue : String
  red : String
deriving DecidableEq, Repr

/-- The `{blue, red}` team-score record. -/
structure Scores where
  blue : Int
  red : Int
deriving DecidableEq, Repr

/-- `interface BullRound` from `types/index.ts`. -/
structure BullRound where
  number : Nat
  question : String
  correctAnswer : String
  incorrectAnswer : String
  suggestedFormat : Option String
  selectedPlayers : SelectedPlayers
  playerAnswers : List (String × String)
  playersReady : List (String × Bool)
  options : List RoundOption
  votes : List (String × String)
  status : RoundStatus
  pointsAwarded : List (String × Int)
  startedAt : Nat
  finishedAt : Option Nat
deriving DecidableEq, Repr

/-- `interface BullGameState` from `types/index.ts`. -/
structure BullGameState where
  currentRound : Nat
  totalRounds : Nat
  phase : GamePhase
  rounds : List BullRound
  scores : Scores
  timeRemaining : Option Nat
  winner : Option Team
deriving DecidableEq, Repr

/-- The `teams : {blue: Player[], red: Player[]}` field, as id lists. -/
structure Teams where
  blue : List String
  red : List String
deriving DecidableEq, Repr

/-- `interface Lobby` from `types/index.ts`. -/
structure Lobby where
  code : String
  hostId : String
  hostSocketId : String
  players : List Player
  teams : Teams
  status : LobbyStatus
  createdAt : Nat
  lastActivity : Nat
  gameState : Option BullGameState
  settings : GameSettings
deriving DecidableEq, Repr

/-- `class GameError` (also covers `LobbyError`, which has the same shape). -/
structure GameError where
  message : String
  code : String
  statusCode : Nat := 400
deriving DecidableEq, Repr

/-- `ERROR_CODES` from `utils/constants.ts` (the subset used by the core). -/
def ERROR_CODES_INVALID_PHASE : String := "INVALID_PHASE"

def ERROR_CODES_ALREADY_SUBMITTED : String := "ALREADY_SUBMITTED"

def ERROR_CODES_VALIDATION_ERROR : String := "VALIDATION_ERROR"

def ERROR_CODES_GAME_ALREADY_STARTED : String := "GAME_ALREADY_STARTED"

def ERROR_CODES_LOBBY_NOT_FOUND : String := "LOBBY_NOT_FOUND"

def ERROR_CODES_LOBBY_FULL : String := "LOBBY_FULL"

def ERROR_CODES_PLAYER_NOT_FOUND : String := "PLAYER_NOT_FOUND"

def ERROR_CODES_NOT_HOST : String := "NOT_HOST"

def ERROR_CODES_SERVER_FULL : String := "SERVER_FULL"

/-- `ROUND_OPTIONS_COUNT = 4` from `utils/constants.ts`. -/
def ROUND_OPTIONS_COUNT : Nat := 4

/-- `MAX_PLAYERS_PER_LOBBY = 8` from `utils/constants.ts`. -/
def MAX_PLAYERS_PER_LOBBY : Nat := 8

/-! ## JS-object helpers

A JS object used as a map is an insertion-ordered list of key-value
pairs with unique keys.  `obj[k]` reads; `obj[k] = v` overwrites in
place or appends. -/

/-- Read `obj[k]` (`undefined` ↦ `none`). -/
def objGet (l : List (String × α)) (k : String) : Option α :=
  (l.find? (fun p => p.1 == k)).map (·.2)

/-- Write `obj[k] = v`: replace the first binding of `k` in place, or
append a new binding. -/
def objSet (l : List (String × α)) (k : String) (v : α) : List (String × α) :=
  match l with
  | [] => [(k, v)]
  | p :: rest => if p.1 == k then (k, v) :: rest else p :: objSet rest k v

theorem objGet_objSet_same (l : List (String × α)) (k : String) (v : α) :
    objGet (objSet l k v) k = some v := by
  induction l with
  | nil => simp [objGet, objSet]
  | cons p rest ih =>
      by_cases h : p.1 = k
      · simp [objGet, objSet, h]
      · simp only [objSet, beq_iff_eq, h, if_false, objGet]
        rw [List.find?_cons_of_neg _ (by simpa using h)]
        exact ih

theorem objGet_objSet_other (l : List (String × α)) (k k' : String) (v : α)
    (hne : k' ≠ k) : objGet (objSet l k v) k' = objGet l k' := by
  induction l with
  | nil =>
      simp only [objSet, objGet]
      rw [List.find?_cons_of_neg _ (by simpa using Ne.symm hne)]
  | cons p rest ih =>
      by_cases h : p.1 = k
      · have h2 : ¬ p.1 = k' := fun hc => hne (hc.symm.trans h)
        simp only [objSet, beq_iff_eq, h, if_true, objGet]
        rw [List.find?_cons_of_neg _ (by simpa using Ne.symm hne),
          List.find?_cons_of_neg _ (by simpa using h2)]
      · simp only [objSet, beq_iff_eq, h, if_false, objGet]
        by_cases h2 : p.1 = k'
        · rw [List.find?_cons_of_pos _ (by simpa using h2),
            List.find?_cons_of_pos _ (by simpa using h2)]
        · rw [List.find?_cons_of_neg _ (by simpa using h2),
            List.find?_cons_of_neg _ (by simpa using h2)]
          exact ih

/-! ## `utils/helpers.ts` : `shuffleArray` (Fisher–Yates)

`Math.random()` is modelled by an oracle `rnd : Nat → Nat`; at loop index
`i` the drawn index `Math.floor(Math.random() * (i + 1))` ranges over
`0 … i`, captured exactly by `rnd i % (i + 1)`. -/

/-- The destructuring swap `[a[i], a[j]] = [a[j], a[i]]` (no-op when an
index is out of range, which never happens in `shuffleArray`). -/
def listSwap (l : List α) (i j : Nat) : List α :=
  match l[i]?, l[j]? with
  | some a, some b => (l.set i b).set j a
  | _, _ => l

/-- The `for (let i = length - 1; i > 0; i--)` loop of `shuffleArray`. -/
def fisherYatesAux (rnd : Nat → Nat) : Nat → List α → List α
  | 0, l => l
  | i + 1, l => fisherYatesAux rnd i (listSwap l (i + 1) (rnd (i + 1) % (i + 2)))

/-- `shuffleArray` from `utils/helpers.ts`. -/
def shuffleArray (l : List α) (rnd : Nat → Nat) : List α :=
  fisherYatesAux rnd (l.length - 1) l

theorem cons_set_perm :
    ∀ (t : List α) (m : Nat) (hm : m < t.length) (a : α),
      List.Perm (t.get ⟨m, hm⟩ :: t.set m a) (a :: t) := by
  intro t
  induction t with
  | nil => intro m hm; exact absurd hm (by simp)
  | cons b t' ih =>
      intro m hm a
      cases m with
      | zero => simpa using List.Perm.swap a b t'
      | succ k =>
          have hk : k < t'.length := by simpa using hm
          have h1 : List.Perm (t'.get ⟨k, hk⟩ :: b :: t'.set k a) (a :: b :: t') :=
            (List.Perm.swap b _ _).trans
              ((List.Perm.cons b (ih k hk a)).trans (List.Perm.swap a b t'))
          simpa using h1

theorem set_set_perm :
    ∀ (l : List α) (i j : Nat) (hi : i < l.length) (hj : j < l.length),
      List.Perm ((l.set i (l.get ⟨j, hj⟩)).set j (l.get ⟨i, hi⟩)) l := by
  intro l
  induction l with
  | nil => intro i j hi; exact absurd hi (by simp)
  | cons x t ih =>
      intro i j hi hj
      cases i with
      | zero =>
          cases j with
          | zero => simp
          | succ m =>
              have hm : m < t.length := by simpa using hj
              simpa using cons_set_perm t m hm x
      | succ n =>
          have hn : n < t.length := by simpa using hi
          cases j with
          | zero => simpa using cons_set_perm t n hn x
          | succ m =>
              have hm : m < t.length := by simpa using hj
              simpa using List.Perm.cons x (ih n m hn hm)

theorem listSwap_perm (l : List α) (i j : Nat) : List.Perm (listSwap l i j) l := by
  unfold listSwap
  cases hi : l[i]? with
  | none => exact List.Perm.refl l
  | some a =>
      cases hj : l[j]? with
      | none => exact List.Perm.refl l
      | some b =>
          have hil : i < l.length := (List.getElem?_eq_some_iff.mp hi).1
          have hjl : j < l.length := (List.getElem?_eq_some_iff.mp hj).1
          have ha : a = l.get ⟨i, hil⟩ := by
            have h := List.getElem?_eq_getElem hil
            rw [hi] at h
            simpa [List.get_eq_getElem] using h
          have hb : b = l.get ⟨j, hjl⟩ := by
            have h := List.getElem?_eq_getElem hjl
            rw [hj] at h
            simpa [List.get_eq_getElem] using h
          subst ha
          subst hb
          exact set_set_perm l i j hil hjl

theorem fisherYatesAux_perm (rnd : Nat → Nat) :
    ∀ (i : Nat) (l : List α), List.Perm (fisherYatesAux rnd i l) l := by
  intro i
  induction i with
  | zero => intro l; exact List.Perm.refl l
  | succ n ih =>
      intro l
      exact (ih _).trans (listSwap_perm l (n + 1) (rnd (n + 1) % (n + 2)))

theorem shuffleArray_perm (l : List α) (rnd : Nat → Nat) :
    List.Perm (shuffleArray l rnd) l :=
  fisherYatesAux_perm rnd (l.length - 1) l

theorem shuffleArray_length (l : List α) (rnd : Nat → Nat) :
    (shuffleArray l rnd).length = l.length :=
  (shuffleArray_perm l rnd).length_eq

/-! ## `services/gameService.ts` -/

/-- `GameService.getCurrentRound`. -/
def getCurrentRound (gs : BullGameState) : Option BullRound :=
  gs.rounds.find? (fun r => r.number == gs.currentRound)

/-- Replace the current round (found by `find?`, i.e. the first round with
the matching number) after an in-place mutation of the found object. -/
def updateRound (rounds : List BullRound) (n : Nat) (r2 : BullRound) :
    List BullRound :=
  match rounds with
  | [] => []
  | r :: rest => if r.number == n then r2 :: rest else r :: updateRound rest n r2

/-- The three `dummyAnswers` texts of `prepareVotingOptions`. -/
def dummyAnswers : List String :=
  ["Respuesta placeholder 1", "Respuesta placeholder 2", "Respuesta placeholder 3"]

/-- The options pushed before the dummy-fill loop of `prepareVotingOptions`:
correct answer, seed incorrect answer, then one option per submitted player
answer.  The `k`-th `generateUUID()` call is `uuid k`. -/
def baseOptions (round : BullRound) (uuid : Nat → String) : List RoundOption :=
  { id := uuid 0, text := round.correctAnswer,
    origin := OptionOrigin.correct, position := 0 } ::
  { id := uuid 1, text := round.incorrectAnswer,
    origin := OptionOrigin.incorrect, position := 0 } ::
  round.playerAnswers.enum.map (fun p =>
    { id := uuid (2 + p.1), text := p.2.2,
      origin := OptionOrigin.player p.2.1, position := 0 })

/-- The `while (options.length < ROUND_OPTIONS_COUNT)` dummy-fill loop of
`prepareVotingOptions`.  Every option so far consumed one `generateUUID()`
call, so the next call has index `options.length`. -/
def fillDummies (uuid : Nat → String) (options : List RoundOption) :
    List RoundOption :=
  if options.length < ROUND_OPTIONS_COUNT then
    fillDummies uuid (options ++
      [{ id := uuid options.length,
         text := (dummyAnswers.getD (options.length - 2) "Respuesta placeholder"),
         origin := OptionOrigin.incorrect, position := 0 }])
  else options
termination_by ROUND_OPTIONS_COUNT - options.length
decreasing_by simp only [List.length_append, List.length_cons, List.length_nil]; omega

/-- `GameService.prepareVotingOptions`.  Returns the mutated lobby together
with the returned option list. -/
def prepareVotingOptions (lobby : Lobby) (uuid : Nat → String)
    (rnd : Nat → Nat) : Except GameError (Lobby × List RoundOption) :=
  match lobby.gameState with
  | none => .error { message := "El juego no ha sido iniciado",
                     code := ERROR_CODES_INVALID_PHASE }
  | some gs =>
    match getCurrentRound gs with
    | none => .error { message := "No hay ronda activa",
                       code := ERROR_CODES_INVALID_PHASE }
    | some round =>
      let options := fillDummies uuid (baseOptions round uuid)
      let finalOptions := (shuffleArray (options.take ROUND_OPTIONS_COUNT) rnd).enum.map
        (fun p => { p.2 with position := p.1 + 1 })
      let round2 := { round with options := finalOptions }
      let gs2 := { gs with
        rounds := updateRound gs.rounds gs.currentRound round2,
        phase := GamePhase.voting }
      .ok ({ lobby with gameState := some gs2 }, finalOptions)

theorem fillDummies_length (uuid : Nat → String) (options : List RoundOption) :
    (fillDummies uuid options).length = max ROUND_OPTIONS_COUNT options.length := by
  rw [fillDummies]
  split
  · rw [fillDummies_length]
    simp only [List.length_append, List.length_cons, List.length_nil]
    omega
  · omega
termination_by ROUND_OPTIONS_COUNT - options.length
decreasing_by simp only [List.length_append, List.length_cons, List.length_nil]; omega

theorem fillDummies_countP_correct (uuid : Nat → String)
    (options : List RoundOption) :
    (fillDummies uuid options).countP (fun o => o.origin == OptionOrigin.correct) =
      options.countP (fun o => o.origin == OptionOrigin.correct) := by
  rw [fillDummies]
  split
  · rw [fillDummies_countP_correct]
    simp [List.countP_append, List.countP_cons]
  · rfl
termination_by ROUND_OPTIONS_COUNT - options.length
decreasing_by simp only [List.length_append, List.length_cons, List.length_nil]; omega

theorem fillDummies_position_zero (uuid : Nat → String)
    (options : List RoundOption) (hz : ∀ o ∈ options, o.position = 0) :
    ∀ o ∈ fillDummies uuid options, o.position = 0 := by
  rw [fillDummies]
  split
  · refine fillDummies_position_zero uuid _ ?_
    intro o ho
    rcases List.mem_append.mp ho with h | h
    · exact hz o h
    · simp only [List.mem_singleton] at h
      subst h
      rfl
  · exact hz
termination_by ROUND_OPTIONS_COUNT - options.length
decreasing_by simp only [List.length_append, List.length_cons, List.length_nil]; omega

theorem countP_enum (l : List α) (q : α → Bool) :
    l.enum.countP (fun pr => q pr.2) = l.countP q := by
  conv_rhs => rw [← List.enum_map_snd l]
  rw [List.countP_map]
  rfl

theorem countP_enum_correct (l : List RoundOption) :
    l.enum.countP (fun pr => pr.2.origin == OptionOrigin.correct) =
      l.countP (fun o => o.origin == OptionOrigin.correct) := by
  conv_rhs => rw [← List.enum_map_snd l]
  rw [List.countP_map]
  rfl

theorem baseOptions_position_zero (round : BullRound) (uuid : Nat → String) :
    ∀ o ∈ baseOptions round uuid, o.position = 0 := by
  intro o ho
  simp only [baseOptions, List.mem_cons, List.mem_map] at ho
  rcases ho with h | h | ⟨p, _, h⟩ <;> subst h <;> rfl

theorem baseOptions_countP_correct (round : BullRound) (uuid : Nat → String) :
    (baseOptions round uuid).countP (fun o => o.origin == OptionOrigin.correct) = 1 := by
  simp only [baseOptions, List.countP_cons, List.countP_map]
  have h0 : round.playerAnswers.enum.countP
      ((fun o => o.origin == OptionOrigin.correct) ∘ fun p =>
        ({ id := uuid (2 + p.1), text := p.2.2,
           origin := OptionOrigin.player p.2.1, position := 0 } : RoundOption)) = 0 := by
    rw [List.countP_eq_zero]
    intro a _
    simp [Function.comp]
  rw [h0]
  rfl

/--
C1: for every call to `prepareVotingOptions` on a round in which 0, 1 or 2
player answers were submitted, the returned (and stored) options form a
list of exactly 4 options of which exactly one has origin `correct`; the
list is a permutation of (correct answer, seed incorrect answer, submitted
player answers, placeholder fillers added while fewer than 4 options
exist, truncated to the first 4); after the shuffle each option's
`position` equals its 1-based index in the final list.
-/
theorem C1_prepareVotingOptions (lobby : Lobby) (uuid : Nat → String)
    (rnd : Nat → Nat) (gs : BullGameState) (round : BullRound)
    (hgs : lobby.gameState = some gs)
    (hround : getCurrentRound gs = some round)
    (hn : round.playerAnswers.length ≤ 2) :
    ∃ lobby2 res, prepareVotingOptions lobby uuid rnd = Except.ok (lobby2, res) ∧
      res.length = 4 ∧
      (res.filter (fun o => o.origin == OptionOrigin.correct)).length = 1 ∧
      List.Perm (res.map (fun o => { o with position := 0 }))
        ((fillDummies uuid (baseOptions round uuid)).take ROUND_OPTIONS_COUNT) ∧
      (∀ i (h : i < res.length), (res.get ⟨i, h⟩).position = i + 1) := by
  have hbl : (baseOptions round uuid).length = 2 + round.playerAnswers.length := by
    simp [baseOptions]
    omega
  have hpre : (fillDummies uuid (baseOptions round uuid)).length = 4 := by
    rw [fillDummies_length, hbl]
    simp only [ROUND_OPTIONS_COUNT]
    omega
  have htake : (fillDummies uuid (baseOptions round uuid)).take ROUND_OPTIONS_COUNT
      = fillDummies uuid (baseOptions round uuid) :=
    List.take_of_length_le (by rw [hpre]; norm_num [ROUND_OPTIONS_COUNT])
  have hperm := shuffleArray_perm
    ((fillDummies uuid (baseOptions round uuid)).take ROUND_OPTIONS_COUNT) rnd
  simp only [prepareVotingOptions, hgs, hround]
  refine ⟨_, _, rfl, ?_, ?_, ?_, ?_⟩
  · rw [List.length_map, List.enum_length, shuffleArray_length, htake, hpre]
  · rw [← List.countP_eq_length_filter, List.countP_map]
    have h1 : (shuffleArray ((fillDummies uuid (baseOptions round uuid)).take
        ROUND_OPTIONS_COUNT) rnd).enum.countP
        ((fun o => o.origin == OptionOrigin.correct) ∘ fun p =>
          { p.2 with position := p.1 + 1 }) =
        (shuffleArray ((fillDummies uuid (baseOptions round uuid)).take
          ROUND_OPTIONS_COUNT) rnd).enum.countP
          (fun pr => pr.2.origin == OptionOrigin.correct) := rfl
    rw [h1, countP_enum_correct, hperm.countP_eq, htake,
      fillDummies_countP_correct, baseOptions_countP_correct]
  · rw [List.map_map]
    have h2 : ((shuffleArray ((fillDummies uuid (baseOptions round uuid)).take
        ROUND_OPTIONS_COUNT) rnd).enum.map
        ((fun o => { o with position := 0 }) ∘ fun p =>
          ({ p.2 with position := p.1 + 1 } : RoundOption))) =
        (shuffleArray ((fillDummies uuid (baseOptions round uuid)).take
          ROUND_OPTIONS_COUNT) rnd).map (fun o => { o with position := 0 }) := by
      conv_rhs => rw [← List.enum_map_snd (shuffleArray _ rnd), List.map_map]
      rfl
    rw [h2]
    have h3 := hperm.map (fun o => ({ o with position := 0 } : RoundOption))
    have h4 : ((fillDummies uuid (baseOptions round uuid)).take
        ROUND_OPTIONS_COUNT).map (fun o => ({ o with position := 0 } : RoundOption)) =
        (fillDummies uuid (baseOptions round uuid)).take ROUND_OPTIONS_COUNT := by
      rw [htake]
      have h5 := fillDummies_position_zero uuid (baseOptions round uuid)
        (baseOptions_position_zero round uuid)
      have h6 : ∀ o ∈ fillDummies uuid (baseOptions round uuid),
          ({ o with position := 0 } : RoundOption) = id o := by
        intro o ho
        have h0 := h5 o ho
        cases o
        simp only [id]
        simp only at h0
        rw [h0]
      rw [List.map_congr_left h6, List.map_id]
    conv_rhs => rw [← h4]
    exact h3
  · intro i h
    rw [List.get_eq_getElem, List.getElem_map, List.getElem_enum]

/-- `DEFAULT_GAME_SETTINGS` from `utils/constants.ts`. -/
def DEFAULT_GAME_SETTINGS : GameSettings :=
  { maxRounds := 5, answerTimeSeconds := 30, voteTimeSeconds := 20,
    pointsCorrectAnswer := 100, pointsConfuseOpponent := 150 }

/-! Concrete fixtures used to instantiate theorems with hypotheses. -/

def samplePlayerBlue : Player :=
  { id := "b1", name := "Beto", team := some Team.blue, isHost := false,
    socketId := "s1", score := 0, isReady := true, isConnected := true }

def samplePlayerRed : Player :=
  { id := "r1", name := "Rita", team := some Team.red, isHost := false,
    socketId := "s2", score := 0, isReady := true, isConnected := true }

def sampleRound : BullRound :=
  { number := 1, question := "¿Qué apodo tenía Fabrizio cuando chico?",
    correctAnswer := "Fay", incorrectAnswer := "Caballero",
    suggestedFormat := none, selectedPlayers := { blue := "b1", red := "r1" },
    playerAnswers := [("b1", "Pepe")], playersReady := [], options := [],
    votes := [], status := RoundStatus.answering, pointsAwarded := [],
    startedAt := 0, finishedAt := none }

def sampleGameState : BullGameState :=
  { currentRound := 1, totalRounds := 5, phase := GamePhase.writing,
    rounds := [sampleRound], scores := { blue := 0, red := 0 },
    timeRemaining := none, winner := none }

def sampleLobby : Lobby :=
  { code := "ABC123", hostId := "h0", hostSocketId := "hs",
    players := [samplePlayerBlue, samplePlayerRed],
    teams := { blue := ["b1"], red := ["r1"] }, status := LobbyStatus.playing,
    createdAt := 0, lastActivity := 0, gameState := some sampleGameState,
    settings := DEFAULT_GAME_SETTINGS }

def sampleUuid : Nat → String := fun n => toString n

def sampleRnd : Nat → Nat := fun _ => 0

/-- Witness for C1 at a concrete round with one submitted player answer. -/
theorem C1_witness :
    ∃ lobby2 res,
      prepareVotingOptions sampleLobby sampleUuid sampleRnd = Except.ok (lobby2, res) ∧
      res.length = 4 ∧
      (res.filter (fun o => o.origin == OptionOrigin.correct)).length = 1 ∧
      List.Perm (res.map (fun o => { o with position := 0 }))
        ((fillDummies sampleUuid (baseOptions sampleRound sampleUuid)).take
          ROUND_OPTIONS_COUNT) ∧
      (∀ i (h : i < res.length), (res.get ⟨i, h⟩).position = i + 1) :=
  C1_prepareVotingOptions sampleLobby sampleUuid sampleRnd sampleGameState
    sampleRound rfl (by decide) (by decide)

/-- `GameService.isGameFinished`. -/
def isGameFinished (lobby : Lobby) : Bool :=
  match lobby.gameState with
  | none => false
  | some gs => decide (gs.currentRound ≥ lobby.settings.maxRounds)

/-- `GameService.finishGame`.  Returns the mutated lobby together with the
returned `{winner, finalScores}`. -/
def finishGame (lobby : Lobby) : Except GameError (Lobby × Team × Scores) :=
  match lobby.gameState with
  | none => .error { message := "El juego no ha sido iniciado",
                     code := ERROR_CODES_INVALID_PHASE }
  | some gs =>
    let winner : Team :=
      if gs.scores.blue > gs.scores.red then Team.blue
      else if gs.scores.red > gs.scores.blue then Team.red
      else Team.blue
    let gs2 := { gs with phase := GamePhase.finished, winner := some winner }
    .ok ({ lobby with gameState := some gs2, status := LobbyStatus.finished },
      winner, gs.scores)

/-- `GameService.allVotesSubmitted`. -/
def allVotesSubmitted (lobby : Lobby) : Bool :=
  match lobby.gameState with
  | none => false
  | some gs =>
    match getCurrentRound gs with
    | none => false
    | some round =>
      let connectedPlayers := lobby.players.filter (fun p => p.isConnected)
      let votedCount := round.votes.length
      decide (votedCount ≥ connectedPlayers.length)

/--
C3: for every lobby with an initialized game state, `finishGame` sets the
game phase and the lobby status to `finished` and records
`winner = blue` when `scores.blue > scores.red`, `red` when
`scores.red > scores.blue`, and `blue` on an exact tie.
-/
theorem C3_finishGame (lobby : Lobby) (gs : BullGameState)
    (hgs : lobby.gameState = some gs) :
    ∃ lobby2 w, finishGame lobby = Except.ok (lobby2, w, gs.scores) ∧
      lobby2.status = LobbyStatus.finished ∧
      (∃ gs2, lobby2.gameState = some gs2 ∧ gs2.phase = GamePhase.finished ∧
        gs2.winner = some w ∧ gs2.scores = gs.scores) ∧
      (gs.scores.blue > gs.scores.red → w = Team.blue) ∧
      (gs.scores.red > gs.scores.blue → w = Team.red) ∧
      (gs.scores.blue = gs.scores.red → w = Team.blue) := by
  simp only [finishGame, hgs]
  refine ⟨_, _, rfl, rfl, ⟨_, rfl, rfl, rfl, rfl⟩, ?_, ?_, ?_⟩
  · intro h
    simp [h]
  · intro h
    have h2 : ¬ gs.scores.blue > gs.scores.red := by omega
    simp [h, h2]
  · intro h
    have h2 : ¬ gs.scores.blue > gs.scores.red := by omega
    have h3 : ¬ gs.scores.red > gs.scores.blue := by omega
    simp [h2, h3]

/-- Witness for C3 at a concrete lobby (tied scores). -/
theorem C3_witness :
    ∃ lobby2 w,
      finishGame sampleLobby = Except.ok (lobby2, w, sampleGameState.scores) ∧
      lobby2.status = LobbyStatus.finished ∧
      (∃ gs2, lobby2.gameState = some gs2 ∧ gs2.phase = GamePhase.finished ∧
        gs2.winner = some w ∧ gs2.scores = sampleGameState.scores) ∧
      (sampleGameState.scores.blue > sampleGameState.scores.red → w = Team.blue) ∧
      (sampleGameState.scores.red > sampleGameState.scores.blue → w = Team.red) ∧
      (sampleGameState.scores.blue = sampleGameState.scores.red → w = Team.blue) :=
  C3_finishGame sampleLobby sampleGameState rfl

/--
C6 (amended): `isGameFinished` returns true exactly when the game state
exists and the current round number has reached `settings.maxRounds`,
regardless of whether the current round has closed.
-/
theorem C6_isGameFinished (lobby : Lobby) :
    isGameFinished lobby = true ↔
      ∃ gs, lobby.gameState = some gs ∧
        lobby.settings.maxRounds ≤ gs.currentRound := by
  cases hgs : lobby.gameState with
  | none => simp [isGameFinished, hgs]
  | some gs => simp [isGameFinished, hgs, ge_iff_le]

/-- Counterexample for C6 as stated: a lobby whose current round has
reached `maxRounds` but whose round is still `answering` (not closed);
`isGameFinished` already returns `true`. -/
def cexC6Lobby : Lobby :=
  { sampleLobby with settings := { DEFAULT_GAME_SETTINGS with maxRounds := 1 } }

theorem C6_counterexample :
    isGameFinished cexC6Lobby = true ∧
    ∃ gs r, cexC6Lobby.gameState = some gs ∧ getCurrentRound gs = some r ∧
      r.status ≠ RoundStatus.finished :=
  ⟨by decide, sampleGameState, sampleRound, rfl, by decide, by decide⟩

/--
C7: `allVotesSubmitted` returns true exactly when the number of votes
recorded in the current round is at least the number of roster players
currently marked connected; it returns false when there is no game state
or no current round.
-/
theorem C7_allVotesSubmitted (lobby : Lobby) :
    allVotesSubmitted lobby = true ↔
      ∃ gs round, lobby.gameState = some gs ∧ getCurrentRound gs = some round ∧
        (lobby.players.filter (fun p => p.isConnected)).length ≤
          round.votes.length := by
  cases hgs : lobby.gameState with
  | none => simp [allVotesSubmitted, hgs]
  | some gs =>
      cases hr : getCurrentRound gs with
      | none => simp [allVotesSubmitted, hgs, hr]
      | some round => simp [allVotesSubmitted, hgs, hr, ge_iff_le]

theorem string_length_eq_zero_iff (s : String) : s.length = 0 ↔ s = "" := by
  constructor
  · intro h
    cases s with
    | mk data =>
        cases data with
        | nil => rfl
        | cons c cs => simp [String.length] at h
  · intro h
    subst h
    rfl

/-- JS `String.prototype.toLowerCase()`: character-wise lowercase. -/
def jsToLower (s : String) : String := ⟨s.data.map Char.toLower⟩

/-- JS `String.prototype.trim()`: strip leading and trailing whitespace. -/
def jsTrim (s : String) : String :=
  ⟨((s.data.dropWhile Char.isWhitespace).reverse.dropWhile Char.isWhitespace).reverse⟩

/-- JS truthiness of a possibly-absent string (`if (obj[k])`): truthy iff
present and non-empty. -/
def truthyStr : Option String → Bool
  | some s => decide (s ≠ "")
  | none => false

theorem find?_updateRound (rounds : List BullRound) (n : Nat)
    (r r2 : BullRound)
    (h : rounds.find? (fun x => x.number == n) = some r)
    (hn : r2.number = n) :
    (updateRound rounds n r2).find? (fun x => x.number == n) = some r2 := by
  induction rounds with
  | nil => simp [List.find?] at h
  | cons x rest ih =>
      by_cases hx : x.number = n
      · simp [updateRound, hx, List.find?_cons_of_pos, hn]
      · simp only [updateRound, beq_iff_eq, hx, if_false]
        rw [List.find?_cons_of_neg _ (by simpa using hx)] at h
        rw [List.find?_cons_of_neg _ (by simpa using hx)]
        exact ih h

/-- `GameService.submitAnswer`.  Returns the mutated lobby on success. -/
def submitAnswer (lobby : Lobby) (playerId : String) (answer : String) :
    Except GameError Lobby :=
  match lobby.gameState with
  | none => .error { message := "El juego no ha sido iniciado",
                     code := ERROR_CODES_INVALID_PHASE }
  | some gs =>
    if gs.phase ≠ GamePhase.writing then
      .error { message := "No es momento de escribir respuestas",
               code := ERROR_CODES_INVALID_PHASE }
    else
      match getCurrentRound gs with
      | none => .error { message := "No hay ronda activa",
                         code := ERROR_CODES_INVALID_PHASE }
      | some currentRound =>
        if truthyStr (objGet currentRound.playerAnswers playerId) then
          .error { message := "Ya has enviado tu respuesta",
                   code := ERROR_CODES_ALREADY_SUBMITTED }
        else if ¬ (currentRound.selectedPlayers.blue = playerId ∨
            currentRound.selectedPlayers.red = playerId) then
          .error { message := "Solo los jugadores seleccionados pueden responder en esta ronda",
                   code := ERROR_CODES_INVALID_PHASE }
        else
          let trimmedAnswer := jsTrim answer
          let correctAnswer := jsToLower currentRound.correctAnswer
          let incorrectAnswer := jsToLower currentRound.incorrectAnswer
          let userAnswer := jsToLower trimmedAnswer
          if userAnswer = correctAnswer then
            .error { message := "Tu respuesta no puede ser igual a la respuesta correcta",
                     code := ERROR_CODES_VALIDATION_ERROR }
          else if userAnswer = incorrectAnswer then
            .error { message := "Tu respuesta no puede ser igual a la respuesta incorrecta predefinida",
                     code := ERROR_CODES_VALIDATION_ERROR }
          else if trimmedAnswer.length = 0 then
            .error { message := "La respuesta no puede estar vacía",
                     code := ERROR_CODES_VALIDATION_ERROR }
          else
            let round2 := { currentRound with
              playerAnswers := objSet currentRound.playerAnswers playerId trimmedAnswer }
            .ok { lobby with gameState := some { gs with
              rounds := updateRound gs.rounds gs.currentRound round2 } }

/--
C5: `submitAnswer` records the trimmed answer if and only if the phase is
`writing`, a current round exists, the player is one of the two selected
players, has not already submitted (truthy entry), and the trimmed answer
is non-empty and differs case-insensitively from the round's correct and
seed incorrect answers; in every other case it raises a typed error
(`ALREADY_SUBMITTED` on a repeated submission) and records no answer.
-/
theorem C5_submitAnswer (lobby : Lobby) (playerId answer : String)
    (gs : BullGameState) (hgs : lobby.gameState = some gs) :
    ((∃ lobby2, submitAnswer lobby playerId answer = Except.ok lobby2) ↔
      (gs.phase = GamePhase.writing ∧
        ∃ round, getCurrentRound gs = some round ∧
          truthyStr (objGet round.playerAnswers playerId) = false ∧
          (round.selectedPlayers.blue = playerId ∨
            round.selectedPlayers.red = playerId) ∧
          jsToLower (jsTrim answer) ≠ jsToLower round.correctAnswer ∧
          jsToLower (jsTrim answer) ≠ jsToLower round.incorrectAnswer ∧
          jsTrim answer ≠ "")) ∧
    (∀ lobby2, submitAnswer lobby playerId answer = Except.ok lobby2 →
      ∃ gs2 round2, lobby2.gameState = some gs2 ∧
        getCurrentRound gs2 = some round2 ∧
        objGet round2.playerAnswers playerId = some (jsTrim answer)) ∧
    (∀ round, gs.phase = GamePhase.writing → getCurrentRound gs = some round →
      truthyStr (objGet round.playerAnswers playerId) = true →
      ∃ e, submitAnswer lobby playerId answer = Except.error e ∧
        e.code = ERROR_CODES_ALREADY_SUBMITTED) ∧
    (¬ (gs.phase = GamePhase.writing ∧
        ∃ round, getCurrentRound gs = some round ∧
          truthyStr (objGet round.playerAnswers playerId) = false ∧
          (round.selectedPlayers.blue = playerId ∨
            round.selectedPlayers.red = playerId) ∧
          jsToLower (jsTrim answer) ≠ jsToLower round.correctAnswer ∧
          jsToLower (jsTrim answer) ≠ jsToLower round.incorrectAnswer ∧
          jsTrim answer ≠ "") →
      ∃ e, submitAnswer lobby playerId answer = Except.error e) := by
  have mk_err : ∀ (E : GameError),
      submitAnswer lobby playerId answer = Except.error E →
      (¬ (gs.phase = GamePhase.writing ∧
        ∃ round, getCurrentRound gs = some round ∧
          truthyStr (objGet round.playerAnswers playerId) = false ∧
          (round.selectedPlayers.blue = playerId ∨
            round.selectedPlayers.red = playerId) ∧
          jsToLower (jsTrim answer) ≠ jsToLower round.correctAnswer ∧
          jsToLower (jsTrim answer) ≠ jsToLower round.incorrectAnswer ∧
          jsTrim answer ≠ "")) →
      ((∃ lobby2, submitAnswer lobby playerId answer = Except.ok lobby2) ↔
        (gs.phase = GamePhase.writing ∧
          ∃ round, getCurrentRound gs = some round ∧
            truthyStr (objGet round.playerAnswers playerId) = false ∧
            (round.selectedPlayers.blue = playerId ∨
              round.selectedPlayers.red = playerId) ∧
            jsToLower (jsTrim answer) ≠ jsToLower round.correctAnswer ∧
            jsToLower (jsTrim answer) ≠ jsToLower round.incorrectAnswer ∧
            jsTrim answer ≠ "")) ∧
      (∀ lobby2, submitAnswer lobby playerId answer = Except.ok lobby2 →
        ∃ gs2 round2, lobby2.gameState = some gs2 ∧
          getCurrentRound gs2 = some round2 ∧
          objGet round2.playerAnswers playerId = some (jsTrim answer)) := by
    intro E hval hnc
    constructor
    · constructor
      · intro h2
        obtain ⟨lobby2, h3⟩ := h2
        rw [hval] at h3
        cases h3
      · intro hcond
        exact absurd hcond hnc
    · intro lobby2 h3
      rw [hval] at h3
      cases h3
  by_cases hph : gs.phase = GamePhase.writing
  · obtain hr | ⟨round, hr⟩ : getCurrentRound gs = none ∨
        ∃ r, getCurrentRound gs = some r := by
      cases getCurrentRound gs
      · exact Or.inl rfl
      · exact Or.inr ⟨_, rfl⟩
    · 
        have hval : submitAnswer lobby playerId answer = Except.error
            { message := "No hay ronda activa", code := ERROR_CODES_INVALID_PHASE } := by
          simp only [submitAnswer, hgs]
          rw [if_neg (fun hcon => hcon hph)]
          simp only [hr]
        have hnc : ¬ (gs.phase = GamePhase.writing ∧
            ∃ round, getCurrentRound gs = some round ∧
              truthyStr (objGet round.playerAnswers playerId) = false ∧
              (round.selectedPlayers.blue = playerId ∨
                round.selectedPlayers.red = playerId) ∧
              jsToLower (jsTrim answer) ≠ jsToLower round.correctAnswer ∧
              jsToLower (jsTrim answer) ≠ jsToLower round.incorrectAnswer ∧
              jsTrim answer ≠ "") := by
          rintro ⟨_, round1, hr1, _⟩
          rw [hr] at hr1
          cases hr1
        obtain ⟨c1, c2⟩ := mk_err _ hval hnc
        refine ⟨c1, c2, ?_, fun _ => ⟨_, hval⟩⟩
        intro round1 _ hr1 _
        rw [hr] at hr1
        cases hr1
    ·
        by_cases hsub : truthyStr (objGet round.playerAnswers playerId) = true
        · have hval : submitAnswer lobby playerId answer = Except.error
              { message := "Ya has enviado tu respuesta",
                code := ERROR_CODES_ALREADY_SUBMITTED } := by
            simp only [submitAnswer, hgs]
            rw [if_neg (fun hcon => hcon hph)]
            simp only [hr]
            rw [if_pos hsub]
          have hnc : ¬ (gs.phase = GamePhase.writing ∧
              ∃ round1, getCurrentRound gs = some round1 ∧
                truthyStr (objGet round1.playerAnswers playerId) = false ∧
                (round1.selectedPlayers.blue = playerId ∨
                  round1.selectedPlayers.red = playerId) ∧
                jsToLower (jsTrim answer) ≠ jsToLower round1.correctAnswer ∧
                jsToLower (jsTrim answer) ≠ jsToLower round1.incorrectAnswer ∧
                jsTrim answer ≠ "") := by
            rintro ⟨_, round1, hr1, hsub1, _⟩
            rw [hr] at hr1
            cases hr1
            rw [hsub] at hsub1
            cases hsub1
          obtain ⟨c1, c2⟩ := mk_err _ hval hnc
          exact ⟨c1, c2, fun _ _ _ _ => ⟨_, hval, rfl⟩, fun _ => ⟨_, hval⟩⟩
        · have hsub2 : truthyStr (objGet round.playerAnswers playerId) = false := by
            simpa using hsub
          by_cases hsel : (round.selectedPlayers.blue = playerId ∨
              round.selectedPlayers.red = playerId)
          · by_cases hc : jsToLower (jsTrim answer) = jsToLower round.correctAnswer
            · have hval : submitAnswer lobby playerId answer = Except.error
                  { message := "Tu respuesta no puede ser igual a la respuesta correcta",
                    code := ERROR_CODES_VALIDATION_ERROR } := by
                simp only [submitAnswer, hgs]
                rw [if_neg (fun hcon => hcon hph)]
                simp only [hr]
                rw [if_neg hsub, if_neg (not_not_intro hsel), if_pos hc]
              have hnc : ¬ (gs.phase = GamePhase.writing ∧
                  ∃ round1, getCurrentRound gs = some round1 ∧
                    truthyStr (objGet round1.playerAnswers playerId) = false ∧
                    (round1.selectedPlayers.blue = playerId ∨
                      round1.selectedPlayers.red = playerId) ∧
                    jsToLower (jsTrim answer) ≠ jsToLower round1.correctAnswer ∧
                    jsToLower (jsTrim answer) ≠ jsToLower round1.incorrectAnswer ∧
                    jsTrim answer ≠ "") := by
                rintro ⟨_, round1, hr1, _, _, hc1, _⟩
                rw [hr] at hr1
                cases hr1
                exact hc1 hc
              obtain ⟨c1, c2⟩ := mk_err _ hval hnc
              refine ⟨c1, c2, ?_, fun _ => ⟨_, hval⟩⟩
              intro round1 _ hr1 htr1
              rw [hr] at hr1
              cases hr1
              rw [htr1] at hsub2
              cases hsub2
            · by_cases hi : jsToLower (jsTrim answer) = jsToLower round.incorrectAnswer
              · have hval : submitAnswer lobby playerId answer = Except.error
                    { message := "Tu respuesta no puede ser igual a la respuesta incorrecta predefinida",
                      code := ERROR_CODES_VALIDATION_ERROR } := by
                  simp only [submitAnswer, hgs]
                  rw [if_neg (fun hcon => hcon hph)]
                  simp only [hr]
                  rw [if_neg hsub, if_neg (not_not_intro hsel), if_neg hc, if_pos hi]
                have hnc : ¬ (gs.phase = GamePhase.writing ∧
                    ∃ round1, getCurrentRound gs = some round1 ∧
                      truthyStr (objGet round1.playerAnswers playerId) = false ∧
                      (round1.selectedPlayers.blue = playerId ∨
                        round1.selectedPlayers.red = playerId) ∧
                      jsToLower (jsTrim answer) ≠ jsToLower round1.correctAnswer ∧
                      jsToLower (jsTrim answer) ≠ jsToLower round1.incorrectAnswer ∧
                      jsTrim answer ≠ "") := by
                  rintro ⟨_, round1, hr1, _, _, _, hi1, _⟩
                  rw [hr] at hr1
                  cases hr1
                  exact hi1 hi
                obtain ⟨c1, c2⟩ := mk_err _ hval hnc
                refine ⟨c1, c2, ?_, fun _ => ⟨_, hval⟩⟩
                intro round1 _ hr1 htr1
                rw [hr] at hr1
                cases hr1
                rw [htr1] at hsub2
                cases hsub2
              · by_cases hz : jsTrim answer = ""
                · have hz2 : (jsTrim answer).length = 0 :=
                    (string_length_eq_zero_iff _).mpr hz
                  have hval : submitAnswer lobby playerId answer = Except.error
                      { message := "La respuesta no puede estar vacía",
                        code := ERROR_CODES_VALIDATION_ERROR } := by
                    simp only [submitAnswer, hgs]
                    rw [if_neg (fun hcon => hcon hph)]
                    simp only [hr]
                    rw [if_neg hsub, if_neg (not_not_intro hsel), if_neg hc,
                      if_neg hi, if_pos hz2]
                  have hnc : ¬ (gs.phase = GamePhase.writing ∧
                      ∃ round1, getCurrentRound gs = some round1 ∧
                        truthyStr (objGet round1.playerAnswers playerId) = false ∧
                        (round1.selectedPlayers.blue = playerId ∨
                          round1.selectedPlayers.red = playerId) ∧
                        jsToLower (jsTrim answer) ≠ jsToLower round1.correctAnswer ∧
                        jsToLower (jsTrim answer) ≠ jsToLower round1.incorrectAnswer ∧
                        jsTrim answer ≠ "") := by
                    rintro ⟨_, round1, hr1, _, _, _, _, hz1⟩
                    exact hz1 hz
                  obtain ⟨c1, c2⟩ := mk_err _ hval hnc
                  refine ⟨c1, c2, ?_, fun _ => ⟨_, hval⟩⟩
                  intro round1 _ hr1 htr1
                  rw [hr] at hr1
                  cases hr1
                  rw [htr1] at hsub2
                  cases hsub2
                · have hz2 : ¬ (jsTrim answer).length = 0 := by
                    intro h0
                    exact hz ((string_length_eq_zero_iff _).mp h0)
                  have hval : submitAnswer lobby playerId answer = Except.ok { lobby with gameState := some { gs with rounds := updateRound gs.rounds gs.currentRound { round with playerAnswers := objSet round.playerAnswers playerId (jsTrim answer) } } } := by
                    simp only [submitAnswer, hgs]
                    rw [if_neg (fun hcon => hcon hph)]
                    simp only [hr]
                    rw [if_neg hsub, if_neg (not_not_intro hsel), if_neg hc,
                      if_neg hi, if_neg hz2]
                  have hnum : round.number = gs.currentRound := by
                    have h4 := List.find?_some hr
                    simpa using h4
                  refine ⟨?_, ?_, ?_, ?_⟩
                  · constructor
                    · intro _
                      exact ⟨hph, round, hr, hsub2, hsel, hc, hi, hz⟩
                    · intro _
                      exact ⟨_, hval⟩
                  · intro lobby2 h3
                    rw [hval] at h3
                    cases h3
                    refine ⟨_, { round with playerAnswers := objSet round.playerAnswers playerId (jsTrim answer) }, rfl, ?_, objGet_objSet_same _ _ _⟩
                    exact find?_updateRound gs.rounds gs.currentRound round _ hr hnum
                  · intro round1 _ hr1 htr1
                    rw [hr] at hr1
                    cases hr1
                    rw [htr1] at hsub2
                    cases hsub2
                  · intro h
                    exact absurd ⟨hph, round, hr, hsub2, hsel, hc, hi, hz⟩ h
          · have hval : submitAnswer lobby playerId answer = Except.error
                { message := "Solo los jugadores seleccionados pueden responder en esta ronda",
                  code := ERROR_CODES_INVALID_PHASE } := by
              simp only [submitAnswer, hgs]
              rw [if_neg (fun hcon => hcon hph)]
              simp only [hr]
              rw [if_neg hsub, if_pos hsel]
            have hnc : ¬ (gs.phase = GamePhase.writing ∧
                ∃ round1, getCurrentRound gs = some round1 ∧
                  truthyStr (objGet round1.playerAnswers playerId) = false ∧
                  (round1.selectedPlayers.blue = playerId ∨
                    round1.selectedPlayers.red = playerId) ∧
                  jsToLower (jsTrim answer) ≠ jsToLower round1.correctAnswer ∧
                  jsToLower (jsTrim answer) ≠ jsToLower round1.incorrectAnswer ∧
                  jsTrim answer ≠ "") := by
              rintro ⟨_, round1, hr1, _, hsel1, _⟩
              rw [hr] at hr1
              cases hr1
              exact hsel hsel1
            obtain ⟨c1, c2⟩ := mk_err _ hval hnc
            refine ⟨c1, c2, ?_, fun _ => ⟨_, hval⟩⟩
            intro round1 _ hr1 htr1
            rw [hr] at hr1
            cases hr1
            rw [htr1] at hsub2
            cases hsub2
  · have hval : submitAnswer lobby playerId answer = Except.error
        { message := "No es momento de escribir respuestas",
          code := ERROR_CODES_INVALID_PHASE } := by
      simp only [submitAnswer, hgs]
      rw [if_pos hph]
    have hnc : ¬ (gs.phase = GamePhase.writing ∧
        ∃ round1, getCurrentRound gs = some round1 ∧
          truthyStr (objGet round1.playerAnswers playerId) = false ∧
          (round1.selectedPlayers.blue = playerId ∨
            round1.selectedPlayers.red = playerId) ∧
          jsToLower (jsTrim answer) ≠ jsToLower round1.correctAnswer ∧
          jsToLower (jsTrim answer) ≠ jsToLower round1.incorrectAnswer ∧
          jsTrim answer ≠ "") := by
      rintro ⟨hph1, _⟩
      exact hph hph1
    obtain ⟨c1, c2⟩ := mk_err _ hval hnc
    refine ⟨c1, c2, ?_, fun _ => ⟨_, hval⟩⟩
    intro round1 hph1 _ _
    exact absurd hph1 hph

/-- Witness for C5: a concrete valid submission by the selected red player
succeeds. -/
theorem C5_witness :
    ∃ lobby2, submitAnswer sampleLobby "r1" " Zorro " = Except.ok lobby2 :=
  ((C5_submitAnswer sampleLobby "r1" " Zorro " sampleGameState rfl).1).mpr
    ⟨rfl, sampleRound, by decide, by decide, Or.inr (by decide), by decide,
      by decide, by decide⟩

/-! ## `GameService.calculateRoundResults` -/

/-- `interface RoundResult` from `types/index.ts` (`votes` maps a voter to
`{optionId, isCorrect}`). -/
structure RoundResult where
  roundNumber : Nat
  question : String
  correctOptionId : String
  votes : List (String × String × Bool)
  pointsAwarded : List (String × Int)
  newScores : Scores
  confusionResults : List (String × List String)
deriving DecidableEq, Repr

/-- `lobby.players.find((p) => p.id === pid)`. -/
def lookupPlayer (ps : List Player) (pid : String) : Option Player :=
  ps.find? (fun p => p.id == pid)

/-- In-place mutation of the (first) `Player` object found by id — the
source mutates the object returned by `find`, which is the first match. -/
def updFirstPlayer (ps : List Player) (pid : String) (f : Player → Player) :
    List Player :=
  match ps with
  | [] => []
  | p :: rest =>
      if p.id == pid then f p :: rest else p :: updFirstPlayer rest pid f

/-- `player.score += d`. -/
def updScore (ps : List Player) (pid : String) (d : Int) : List Player :=
  updFirstPlayer ps pid (fun p => { p with score := p.score + d })

/-- `newScores[team] += d`. -/
def addTeamScore (s : Scores) (t : Team) (d : Int) : Scores :=
  match t with
  | Team.blue => { s with blue := s.blue + d }
  | Team.red => { s with red := s.red + d }

/-- Projection of a `Scores` record at a team. -/
def scoreFor (s : Scores) (t : Team) : Int :=
  match t with
  | Team.blue => s.blue
  | Team.red => s.red

/-- The running state mutated by the two loops of `calculateRoundResults`:
the (aliased) `lobby.players` array, `result.votes`,
`result.pointsAwarded`, `currentRound.pointsAwarded`, `result.newScores`
and `result.confusionResults`. -/
structure CalcState where
  players : List Player
  votesOut : List (String × String × Bool)
  pointsAwarded : List (String × Int)
  roundPoints : List (String × Int)
  newScores : Scores
  confusionResults : List (String × List String)
deriving DecidableEq, Repr

/-- One iteration of the `for ... of Object.entries(currentRound.votes)`
loop of `calculateRoundResults`. -/
def processVote (settings : GameSettings) (options : List RoundOption)
    (correctId : String) (st : CalcState) (v : String × String) : CalcState :=
  match lookupPlayer st.players v.1 with
  | none => st
  | some player =>
    match options.find? (fun o => o.id == v.2) with
    | none => st
    | some _ =>
      let isCorrect := v.2 == correctId
      let pointsEarned : Int :=
        if isCorrect then settings.pointsCorrectAnswer else 0
      { players := updScore st.players v.1 pointsEarned,
        votesOut := objSet st.votesOut v.1 (v.2, isCorrect),
        pointsAwarded := objSet st.pointsAwarded v.1 pointsEarned,
        roundPoints := objSet st.roundPoints v.1 pointsEarned,
        newScores :=
          match player.team with
          | some t => addTeamScore st.newScores t pointsEarned
          | none => st.newScores,
        confusionResults := st.confusionResults }

/-- The `votersForThisOption` computation of `calculateRoundResults`: the
voters for the option who are not the author and whose (existing) player
has a team set and different from the author's (JS
`voter && voter.team && voter.team !== author.team`). -/
def confusedVoters (ps : List Player) (authorId : String)
    (authorTeam : Option Team) (optId : String)
    (votes : List (String × String)) : List String :=
  ((votes.filter (fun q => q.2 == optId)).map (fun q => q.1)).filter
    (fun voterId =>
      if voterId == authorId then false
      else
        match lookupPlayer ps voterId with
        | some voter => voter.team.isSome && voter.team != authorTeam
        | none => false)

/-- One iteration of the confusion-bonus loop of `calculateRoundResults`. -/
def processOption (settings : GameSettings) (votes : List (String × String))
    (st : CalcState) (option : RoundOption) : CalcState :=
  match option.origin with
  | OptionOrigin.player authorId =>
    match lookupPlayer st.players authorId with
    | none => st
    | some author =>
      let votersForThisOption :=
        confusedVoters st.players authorId author.team option.id votes
      if votersForThisOption.length > 0 then
        let confusionPoints : Int :=
          votersForThisOption.length * settings.pointsConfuseOpponent
        { players := updScore st.players authorId confusionPoints,
          votesOut := st.votesOut,
          pointsAwarded := objSet st.pointsAwarded authorId
            ((objGet st.pointsAwarded authorId).getD 0 + confusionPoints),
          roundPoints := objSet st.roundPoints authorId
            ((objGet st.roundPoints authorId).getD 0 + confusionPoints),
          newScores :=
            match author.team with
            | some t => addTeamScore st.newScores t confusionPoints
            | none => st.newScores,
          confusionResults :=
            objSet st.confusionResults authorId votersForThisOption }
      else st
  | _ => st

/-- The vote loop of `calculateRoundResults`, started on the initial
result record. -/
def calcPhase1 (settings : GameSettings) (options : List RoundOption)
    (correctId : String) (players : List Player) (initialScores : Scores)
    (initialRoundPoints : List (String × Int))
    (votes : List (String × String)) : CalcState :=
  votes.foldl (processVote settings options correctId)
    { players := players, votesOut := [], pointsAwarded := [],
      roundPoints := initialRoundPoints, newScores := initialScores,
      confusionResults := [] }

/-- The confusion-bonus loop of `calculateRoundResults`. -/
def calcPhase2 (settings : GameSettings) (votes : List (String × String))
    (st : CalcState) (options : List RoundOption) : CalcState :=
  options.foldl (processOption settings votes) st

/-- `GameService.calculateRoundResults`.  Returns the mutated lobby and
the returned `RoundResult`. -/
def calculateRoundResults (lobby : Lobby) (now : Nat) :
    Except GameError (Lobby × RoundResult) :=
  match lobby.gameState with
  | none => .error { message := "El juego no ha sido iniciado",
                     code := ERROR_CODES_INVALID_PHASE }
  | some gs =>
    match getCurrentRound gs with
    | none => .error { message := "No hay ronda activa",
                       code := ERROR_CODES_INVALID_PHASE }
    | some currentRound =>
      match currentRound.options.find?
          (fun o => o.origin == OptionOrigin.correct) with
      | none => .error { message := "No se encontró la respuesta correcta",
                         code := ERROR_CODES_VALIDATION_ERROR }
      | some correctOption =>
        let st1 := calcPhase1 lobby.settings currentRound.options
          correctOption.id lobby.players gs.scores currentRound.pointsAwarded
          currentRound.votes
        let st2 := calcPhase2 lobby.settings currentRound.votes st1
          currentRound.options
        let result : RoundResult :=
          { roundNumber := currentRound.number,
            question := currentRound.question,
            correctOptionId := correctOption.id,
            votes := st2.votesOut,
            pointsAwarded := st2.pointsAwarded,
            newScores := st2.newScores,
            confusionResults := st2.confusionResults }
        let round2 := { currentRound with
          status := RoundStatus.finished,
          finishedAt := some now,
          pointsAwarded := st2.roundPoints }
        let gs2 := { gs with
          scores := st2.newScores,
          phase := GamePhase.results,
          rounds := updateRound gs.rounds gs.currentRound round2 }
        .ok ({ lobby with players := st2.players, gameState := some gs2 },
          result)

/-- The author ids of the player-authored options of a round. -/
def playerOptionAuthors (options : List RoundOption) : List String :=
  options.filterMap (fun o =>
    match o.origin with
    | OptionOrigin.player a => some a
    | _ => none)

/-- The confusion bonus an option contributes to a team's total: nonzero
only for a player-authored option whose (existing) author is on that team. -/
def optBonusTo (ps : List Player) (votes : List (String × String))
    (settings : GameSettings) (t : Team) (o : RoundOption) : Int :=
  match o.origin with
  | OptionOrigin.player a =>
    match lookupPlayer ps a with
    | some author =>
        if author.team = some t then
          (confusedVoters ps a author.team o.id votes).length *
            settings.pointsConfuseOpponent
        else 0
    | none => 0
  | _ => 0

/-- The team field of the player found by id (`none` when absent). -/
def lookupTeam (ps : List Player) (pid : String) : Option (Option Team) :=
  (lookupPlayer ps pid).map (fun p => p.team)

/-- The score of the player found by id (`none` when absent). -/
def scoreOf (ps : List Player) (pid : String) : Option Int :=
  (lookupPlayer ps pid).map (fun p => p.score)

theorem lookupPlayer_updFirstPlayer_same (ps : List Player) (pid : String)
    (f : Player → Player) (hf : ∀ p, (f p).id = p.id) :
    lookupPlayer (updFirstPlayer ps pid f) pid =
      (lookupPlayer ps pid).map f := by
  induction ps with
  | nil => simp [lookupPlayer, updFirstPlayer]
  | cons p rest ih =>
      unfold lookupPlayer updFirstPlayer
      by_cases hp : p.id = pid
      · simp only [beq_iff_eq, hp, if_true]
        rw [List.find?_cons_of_pos _ (by simp [hf, hp]),
          List.find?_cons_of_pos _ (by simp [hp])]
        rfl
      · simp only [beq_iff_eq, hp, if_false]
        rw [List.find?_cons_of_neg _ (by simpa using hp),
          List.find?_cons_of_neg _ (by simpa using hp)]
        exact ih

theorem lookupPlayer_updFirstPlayer_other (ps : List Player) (pid : String)
    (f : Player → Player) (hf : ∀ p, (f p).id = p.id) (x : String)
    (hx : x ≠ pid) :
    lookupPlayer (updFirstPlayer ps pid f) x = lookupPlayer ps x := by
  induction ps with
  | nil => simp [lookupPlayer, updFirstPlayer]
  | cons p rest ih =>
      unfold lookupPlayer updFirstPlayer
      by_cases hp : p.id = pid
      · simp only [beq_iff_eq, hp, if_true]
        rw [List.find?_cons_of_neg _ (by simp [hf, hp]; exact fun hc => hx hc.symm),
          List.find?_cons_of_neg _ (by simp [hp]; exact fun hc => hx hc.symm)]
      · simp only [beq_iff_eq, hp, if_false]
        by_cases hpx : p.id = x
        · rw [List.find?_cons_of_pos _ (by simpa using hpx),
            List.find?_cons_of_pos _ (by simpa using hpx)]
        · rw [List.find?_cons_of_neg _ (by simpa using hpx),
            List.find?_cons_of_neg _ (by simpa using hpx)]
          exact ih

theorem lookupTeam_updScore (ps : List Player) (pid : String) (d : Int)
    (x : String) : lookupTeam (updScore ps pid d) x = lookupTeam ps x := by
  unfold lookupTeam updScore
  by_cases hx : x = pid
  · subst hx
    rw [lookupPlayer_updFirstPlayer_same ps x
      (fun p => { p with score := p.score + d }) (fun p => rfl)]
    cases lookupPlayer ps x <;> simp
  · rw [lookupPlayer_updFirstPlayer_other ps pid
      (fun p => { p with score := p.score + d }) (fun p => rfl) x hx]

theorem lookupPlayer_isSome_updScore (ps : List Player) (pid : String)
    (d : Int) (x : String) :
    (lookupPlayer (updScore ps pid d) x).isSome = (lookupPlayer ps x).isSome := by
  have h := lookupTeam_updScore ps pid d x
  unfold lookupTeam at h
  cases h1 : lookupPlayer (updScore ps pid d) x <;>
    cases h2 : lookupPlayer ps x <;> simp_all

theorem scoreOf_updScore_other (ps : List Player) (pid : String) (d : Int)
    (x : String) (hx : x ≠ pid) :
    scoreOf (updScore ps pid d) x = scoreOf ps x := by
  unfold scoreOf updScore
  rw [lookupPlayer_updFirstPlayer_other ps pid
    (fun p => { p with score := p.score + d }) (fun p => rfl) x hx]

theorem scoreOf_updScore_same (ps : List Player) (pid : String) (d : Int) :
    scoreOf (updScore ps pid d) pid = (scoreOf ps pid).map (fun x => x + d) := by
  unfold scoreOf updScore
  rw [lookupPlayer_updFirstPlayer_same ps pid
    (fun p => { p with score := p.score + d }) (fun p => rfl)]
  cases lookupPlayer ps pid <;> simp

theorem confusedVoters_congr (ps ps' : List Player)
    (h : ∀ x, lookupTeam ps x = lookupTeam ps' x) (a : String)
    (authorTeam : Option Team) (oid : String)
    (votes : List (String × String)) :
    confusedVoters ps a authorTeam oid votes =
      confusedVoters ps' a authorTeam oid votes := by
  unfold confusedVoters
  apply List.filter_congr
  intro v _
  by_cases hv : v = a
  · simp [hv]
  · simp only [beq_iff_eq, hv, if_false]
    have hx := h v
    unfold lookupTeam at hx
    cases h1 : lookupPlayer ps v <;> cases h2 : lookupPlayer ps' v <;>
      rw [h1, h2] at hx <;> simp_all

theorem optBonusTo_congr (ps ps' : List Player)
    (h : ∀ x, lookupTeam ps x = lookupTeam ps' x)
    (votes : List (String × String)) (settings : GameSettings) (t : Team)
    (o : RoundOption) :
    optBonusTo ps votes settings t o = optBonusTo ps' votes settings t o := by
  unfold optBonusTo
  cases ho : o.origin with
  | player a =>
      have hx := h a
      unfold lookupTeam at hx
      cases h1 : lookupPlayer ps a <;> cases h2 : lookupPlayer ps' a <;>
        rw [h1, h2] at hx <;> simp_all
      rw [confusedVoters_congr ps ps' h]
  | correct => rfl
  | incorrect => rfl

theorem scoreFor_addTeamScore (s : Scores) (t' t : Team) (d : Int) :
    scoreFor (addTeamScore s t' d) t =
      scoreFor s t + (if t' = t then d else 0) := by
  cases t' <;> cases t <;> simp [scoreFor, addTeamScore]

/-- `processVote` only ever changes player scores: the id/team view of the
roster is untouched. -/
theorem processVote_lookupTeam (settings : GameSettings)
    (options : List RoundOption) (correctId : String) (st : CalcState)
    (v : String × String) (x : String) :
    lookupTeam (processVote settings options correctId st v).players x =
      lookupTeam st.players x := by
  unfold processVote
  cases lookupPlayer st.players v.1 <;> try rfl
  cases options.find? (fun o => o.id == v.2) <;> try rfl
  simp only
  rw [lookupTeam_updScore]

theorem processVote_confusion (settings : GameSettings)
    (options : List RoundOption) (correctId : String) (st : CalcState)
    (v : String × String) :
    (processVote settings options correctId st v).confusionResults =
      st.confusionResults := by
  unfold processVote
  cases lookupPlayer st.players v.1 <;> try rfl
  cases options.find? (fun o => o.id == v.2) <;> rfl

/-- A vote by a different player never touches another id's entries. -/
theorem processVote_other (settings : GameSettings)
    (options : List RoundOption) (correctId : String) (st : CalcState)
    (v : String × String) (a : String) (ha : a ≠ v.1) :
    objGet (processVote settings options correctId st v).pointsAwarded a =
      objGet st.pointsAwarded a ∧
    objGet (processVote settings options correctId st v).votesOut a =
      objGet st.votesOut a ∧
    scoreOf (processVote settings options correctId st v).players a =
      scoreOf st.players a := by
  unfold processVote
  cases lookupPlayer st.players v.1 <;>
    [skip; cases options.find? (fun o => o.id == v.2)] <;>
    try exact ⟨rfl, rfl, rfl⟩
  simp only
  exact ⟨objGet_objSet_other _ _ _ _ ha, objGet_objSet_other _ _ _ _ ha,
    scoreOf_updScore_other _ _ _ _ ha⟩

/-- A vote whose voter id resolves to no player is skipped entirely. -/
theorem processVote_unknown (settings : GameSettings)
    (options : List RoundOption) (correctId : String) (st : CalcState)
    (pid oid : String) (h : lookupPlayer st.players pid = none) :
    processVote settings options correctId st (pid, oid) = st := by
  unfold processVote
  rw [h]

/-- `processOption` only ever changes player scores. -/
theorem processOption_lookupTeam (settings : GameSettings)
    (votes : List (String × String)) (st : CalcState) (o : RoundOption)
    (x : String) :
    lookupTeam (processOption settings votes st o).players x =
      lookupTeam st.players x := by
  unfold processOption
  split
  · split
    · rfl
    · simp only
      split
      · rw [lookupTeam_updScore]
      · rfl
  · rfl

theorem processOption_votesOut (settings : GameSettings)
    (votes : List (String × String)) (st : CalcState) (o : RoundOption) :
    (processOption settings votes st o).votesOut = st.votesOut := by
  unfold processOption
  split
  · split
    · rfl
    · simp only
      split <;> rfl
  · rfl

/-- A player-authored option whose author resolves to no player yields
nothing (the loop `continue`s). -/
theorem processOption_unknown (settings : GameSettings)
    (votes : List (String × String)) (st : CalcState) (o : RoundOption)
    (a : String) (ho : o.origin = OptionOrigin.player a)
    (h : lookupPlayer st.players a = none) :
    processOption settings votes st o = st := by
  unfold processOption
  split
  · rename_i aId heq
    rw [ho] at heq
    injection heq with h2
    subst h2
    rw [h]
  · rfl

/-- An option authored by someone else (or not player-authored) never
touches a given author's entries. -/
theorem processOption_other (settings : GameSettings)
    (votes : List (String × String)) (st : CalcState) (o : RoundOption)
    (a : String)
    (ha : ∀ b, o.origin = OptionOrigin.player b → b ≠ a) :
    objGet (processOption settings votes st o).pointsAwarded a =
      objGet st.pointsAwarded a ∧
    objGet (processOption settings votes st o).confusionResults a =
      objGet st.confusionResults a ∧
    scoreOf (processOption settings votes st o).players a =
      scoreOf st.players a := by
  unfold processOption
  split
  · rename_i aId heq
    have hb : aId ≠ a := ha aId heq
    split
    · exact ⟨rfl, rfl, rfl⟩
    · simp only
      split
      · exact ⟨objGet_objSet_other _ _ _ _ (Ne.symm hb),
          objGet_objSet_other _ _ _ _ (Ne.symm hb),
          scoreOf_updScore_other _ _ _ _ (Ne.symm hb)⟩
      · exact ⟨rfl, rfl, rfl⟩
  · exact ⟨rfl, rfl, rfl⟩

/-- The effect of the confusion-bonus step on its own author's entries. -/
theorem processOption_self (settings : GameSettings)
    (votes : List (String × String)) (st : CalcState) (o : RoundOption)
    (a : String) (author : Player)
    (ho : o.origin = OptionOrigin.player a)
    (hA : lookupPlayer st.players a = some author) :
    (objGet (processOption settings votes st o).confusionResults a =
      (if (confusedVoters st.players a author.team o.id votes).isEmpty then
        objGet st.confusionResults a
      else some (confusedVoters st.players a author.team o.id votes))) ∧
    ((objGet (processOption settings votes st o).pointsAwarded a).getD 0 =
      (objGet st.pointsAwarded a).getD 0 +
        (confusedVoters st.players a author.team o.id votes).length *
          settings.pointsConfuseOpponent) ∧
    (scoreOf (processOption settings votes st o).players a =
      (scoreOf st.players a).map (fun x => x +
        (confusedVoters st.players a author.team o.id votes).length *
          settings.pointsConfuseOpponent)) ∧
    (∀ t, scoreFor (processOption settings votes st o).newScores t =
      scoreFor st.newScores t + optBonusTo st.players votes settings t o) := by
  have hbonus : ∀ t, optBonusTo st.players votes settings t o =
      (if author.team = some t then
        (confusedVoters st.players a author.team o.id votes).length *
          settings.pointsConfuseOpponent
      else 0) := by
    intro t
    simp only [optBonusTo, ho, hA]
  unfold processOption
  split
  · rename_i aId heq
    rw [ho] at heq
    injection heq with h2
    subst h2
    rw [hA]
    simp only
    by_cases hconf :
        (confusedVoters st.players a author.team o.id votes).length > 0
    · rw [if_pos hconf]
      have hne : (confusedVoters st.players a author.team o.id votes).isEmpty
          = false := by
        cases hc : confusedVoters st.players a author.team o.id votes with
        | nil => rw [hc] at hconf; simp at hconf
        | cons y ys => rfl
      refine ⟨?_, ?_, ?_, ?_⟩
      · rw [hne]
        simp only [if_false, Bool.false_eq_true]
        exact objGet_objSet_same _ _ _
      · rw [objGet_objSet_same]
        rfl
      · exact scoreOf_updScore_same _ _ _
      · intro t
        rw [hbonus]
        cases hteam : author.team with
        | none => simp
        | some t2 =>
            simp only
            rw [scoreFor_addTeamScore]
            by_cases ht : t2 = t
            · simp [ht]
            · rw [if_neg ht, if_neg (by simpa using ht)]
    · rw [if_neg hconf]
      have he : (confusedVoters st.players a author.team o.id votes).isEmpty
          = true := by
        cases hc : confusedVoters st.players a author.team o.id votes with
        | nil => rfl
        | cons y ys => rw [hc] at hconf; simp at hconf
      have hlen : (confusedVoters st.players a author.team o.id votes).length
          = 0 := by
        cases hc : confusedVoters st.players a author.team o.id votes with
        | nil => rfl
        | cons y ys => rw [hc] at hconf; simp at hconf
      refine ⟨by simp [he], by rw [hlen]; simp, ?_, ?_⟩
      · rw [hlen]
        cases scoreOf st.players a <;> simp
      · intro t
        rw [hbonus, hlen]
        simp
  · exfalso
    rename_i hcontra
    exact hcontra a ho

theorem processOption_nonplayer (settings : GameSettings)
    (votes : List (String × String)) (st : CalcState) (o : RoundOption)
    (h : ∀ b, o.origin ≠ OptionOrigin.player b) :
    processOption settings votes st o = st := by
  unfold processOption
  split
  · rename_i aId heq
    exact absurd heq (h aId)
  · rfl

theorem optBonusTo_nonplayer (ps : List Player)
    (votes : List (String × String)) (settings : GameSettings) (t : Team)
    (o : RoundOption) (b : String) (ho : o.origin = OptionOrigin.player b)
    (hb : lookupPlayer ps b = none) :
    optBonusTo ps votes settings t o = 0 := by
  simp only [optBonusTo, ho, hb]

/-- The team-score effect of a single confusion-bonus step, for any
option. -/
theorem processOption_newScores (settings : GameSettings)
    (votes : List (String × String)) (st : CalcState) (o : RoundOption)
    (t : Team) :
    scoreFor (processOption settings votes st o).newScores t =
      scoreFor st.newScores t + optBonusTo st.players votes settings t o := by
  cases ho : o.origin with
  | player a =>
      cases hA : lookupPlayer st.players a with
      | none =>
          rw [processOption_unknown settings votes st o a ho hA,
            optBonusTo_nonplayer st.players votes settings t o a ho hA]
          simp
      | some author =>
          exact (processOption_self settings votes st o a author ho hA).2.2.2 t
  | correct =>
      rw [processOption_nonplayer settings votes st o (by rw [ho]; intro b hc; cases hc)]
      simp only [optBonusTo, ho]
      simp
  | incorrect =>
      rw [processOption_nonplayer settings votes st o (by rw [ho]; intro b hc; cases hc)]
      simp only [optBonusTo, ho]
      simp

theorem lookupPlayer_none_iff_lookupTeam (ps : List Player) (x : String) :
    lookupPlayer ps x = none ↔ lookupTeam ps x = none := by
  unfold lookupTeam
  cases lookupPlayer ps x <;> simp

theorem lookupPlayer_isSome_eq_of_lookupTeam (ps ps' : List Player)
    (x : String) (h : lookupTeam ps x = lookupTeam ps' x) :
    (lookupPlayer ps x).isSome = (lookupPlayer ps' x).isSome := by
  unfold lookupTeam at h
  cases h1 : lookupPlayer ps x <;> cases h2 : lookupPlayer ps' x <;>
    rw [h1, h2] at h <;> simp_all

/-! Fold lemmas for the confusion-bonus loop. -/

theorem calcPhase2_lookupTeam (settings : GameSettings)
    (votes : List (String × String)) :
    ∀ (options : List RoundOption) (st : CalcState) (x : String),
      lookupTeam (calcPhase2 settings votes st options).players x =
        lookupTeam st.players x := by
  intro options
  induction options with
  | nil => intro st x; rfl
  | cons o rest ih =>
      intro st x
      unfold calcPhase2 at *
      simp only [List.foldl_cons]
      rw [ih, processOption_lookupTeam]

theorem calcPhase2_votesOut (settings : GameSettings)
    (votes : List (String × String)) :
    ∀ (options : List RoundOption) (st : CalcState),
      (calcPhase2 settings votes st options).votesOut = st.votesOut := by
  intro options
  induction options with
  | nil => intro st; rfl
  | cons o rest ih =>
      intro st
      unfold calcPhase2 at *
      simp only [List.foldl_cons]
      rw [ih, processOption_votesOut]

theorem calcPhase2_newScores (settings : GameSettings)
    (votes : List (String × String)) :
    ∀ (options : List RoundOption) (st : CalcState) (t : Team),
      scoreFor (calcPhase2 settings votes st options).newScores t =
        scoreFor st.newScores t +
          (options.map (optBonusTo st.players votes settings t)).sum := by
  intro options
  induction options with
  | nil => intro st t; simp [calcPhase2]
  | cons o rest ih =>
      intro st t
      unfold calcPhase2 at *
      simp only [List.foldl_cons, List.map_cons, List.sum_cons]
      rw [ih]
      have hcongr : rest.map (optBonusTo
          (processOption settings votes st o).players votes settings t) =
          rest.map (optBonusTo st.players votes settings t) := by
        apply List.map_congr_left
        intro o2 _
        exact optBonusTo_congr _ _
          (fun x => processOption_lookupTeam settings votes st o x) votes
          settings t o2
      rw [hcongr, processOption_newScores]
      ring

theorem calcPhase2_other (settings : GameSettings)
    (votes : List (String × String)) (A : String) :
    ∀ (options : List RoundOption) (st : CalcState),
      (∀ o ∈ options, ∀ b, o.origin = OptionOrigin.player b → b ≠ A) →
      objGet (calcPhase2 settings votes st options).pointsAwarded A =
        objGet st.pointsAwarded A ∧
      objGet (calcPhase2 settings votes st options).confusionResults A =
        objGet st.confusionResults A ∧
      scoreOf (calcPhase2 settings votes st options).players A =
        scoreOf st.players A := by
  intro options
  induction options with
  | nil => intro st _; exact ⟨rfl, rfl, rfl⟩
  | cons o rest ih =>
      intro st h
      unfold calcPhase2 at *
      simp only [List.foldl_cons]
      have hstep := processOption_other settings votes st o A
        (fun b hb => h o (by simp) b hb)
      have hrest := ih (processOption settings votes st o)
        (fun o2 ho2 b hb => h o2 (by simp [ho2]) b hb)
      exact ⟨hrest.1.trans hstep.1, hrest.2.1.trans hstep.2.1,
        hrest.2.2.trans hstep.2.2⟩

/-! Fold lemmas for the vote loop. -/

theorem foldl_processVote_confusion (settings : GameSettings)
    (options : List RoundOption) (correctId : String) :
    ∀ (votes : List (String × String)) (st : CalcState),
      ((votes.foldl (processVote settings options correctId)
        st)).confusionResults = st.confusionResults := by
  intro votes
  induction votes with
  | nil => intro st; rfl
  | cons w rest ih =>
      intro st
      simp only [List.foldl_cons]
      rw [ih, processVote_confusion]

theorem foldl_processVote_lookupTeam (settings : GameSettings)
    (options : List RoundOption) (correctId : String) :
    ∀ (votes : List (String × String)) (st : CalcState) (x : String),
      lookupTeam ((votes.foldl (processVote settings options correctId)
        st)).players x = lookupTeam st.players x := by
  intro votes
  induction votes with
  | nil => intro st x; rfl
  | cons w rest ih =>
      intro st x
      simp only [List.foldl_cons]
      rw [ih, processVote_lookupTeam]

theorem foldl_processVote_key_other (settings : GameSettings)
    (options : List RoundOption) (correctId : String) (A : String) :
    ∀ (votes : List (String × String)) (st : CalcState),
      (∀ w ∈ votes, w.1 ≠ A) →
      objGet ((votes.foldl (processVote settings options correctId)
          st)).pointsAwarded A = objGet st.pointsAwarded A ∧
      objGet ((votes.foldl (processVote settings options correctId)
          st)).votesOut A = objGet st.votesOut A ∧
      scoreOf ((votes.foldl (processVote settings options correctId)
          st)).players A = scoreOf st.players A := by
  intro votes
  induction votes with
  | nil => intro st _; exact ⟨rfl, rfl, rfl⟩
  | cons w rest ih =>
      intro st h
      simp only [List.foldl_cons]
      have hstep := processVote_other settings options correctId st w A
        (fun hc => h w (by simp) hc.symm)
      have hrest := ih (processVote settings options correctId st w)
        (fun w2 hw2 => h w2 (by simp [hw2]))
      exact ⟨hrest.1.trans hstep.1, hrest.2.1.trans hstep.2.1,
        hrest.2.2.trans hstep.2.2⟩

/-- An id that matches no player is never written by the vote loop. -/
theorem foldl_processVote_unknown (settings : GameSettings)
    (options : List RoundOption) (correctId : String) (pid : String) :
    ∀ (votes : List (String × String)) (st : CalcState),
      lookupPlayer st.players pid = none →
      objGet ((votes.foldl (processVote settings options correctId)
          st)).pointsAwarded pid = objGet st.pointsAwarded pid ∧
      objGet ((votes.foldl (processVote settings options correctId)
          st)).votesOut pid = objGet st.votesOut pid ∧
      lookupPlayer ((votes.foldl (processVote settings options correctId)
          st)).players pid = none := by
  intro votes
  induction votes with
  | nil => intro st h; exact ⟨rfl, rfl, h⟩
  | cons w rest ih =>
      intro st h
      simp only [List.foldl_cons]
      by_cases hw : w.1 = pid
      · have hstep : processVote settings options correctId st w = st := by
          have h2 : lookupPlayer st.players w.1 = none := by rw [hw]; exact h
          exact processVote_unknown settings options correctId st w.1 w.2 h2
        rw [hstep]
        exact ih st h
      · have hne : pid ≠ w.1 := fun hc => hw hc.symm
        have hstep := processVote_other settings options correctId st w pid hne
        have hnone : lookupPlayer (processVote settings options correctId
            st w).players pid = none := by
          rw [lookupPlayer_none_iff_lookupTeam,
            processVote_lookupTeam settings options correctId st w pid,
            ← lookupPlayer_none_iff_lookupTeam]
          exact h
        have hrest := ih (processVote settings options correctId st w) hnone
        exact ⟨hrest.1.trans hstep.1, hrest.2.1.trans hstep.2.1, hrest.2.2⟩

/-- With unique voter keys, each processed vote's final
`result.pointsAwarded` entry is exactly its correct-answer points. -/
theorem foldl_processVote_char (settings : GameSettings)
    (options : List RoundOption) (correctId : String) :
    ∀ (votes : List (String × String)) (st : CalcState) (pid oid : String),
      (votes.map Prod.fst).Nodup → (pid, oid) ∈ votes →
      (lookupPlayer st.players pid).isSome →
      (options.find? (fun o => o.id == oid)).isSome →
      objGet ((votes.foldl (processVote settings options correctId)
          st)).pointsAwarded pid =
        some (if oid == correctId then settings.pointsCorrectAnswer else 0) := by
  intro votes
  induction votes with
  | nil => intro st pid oid _ hmem; simp at hmem
  | cons w rest ih =>
      intro st pid oid hnd hmem hfound hfind
      have hnd2 : (w.1 :: rest.map Prod.fst).Nodup := by
        simpa only [List.map_cons] using hnd
      obtain ⟨hwnotin, hndrest⟩ := List.nodup_cons.mp hnd2
      simp only [List.foldl_cons]
      rcases List.mem_cons.mp hmem with heq | hmemr
      · have hw : w = (pid, oid) := heq.symm
        subst hw
        obtain ⟨p, hp⟩ := Option.isSome_iff_exists.mp hfound
        obtain ⟨o2, ho2⟩ := Option.isSome_iff_exists.mp hfind
        have hstep : objGet ((processVote settings options correctId st
            (pid, oid))).pointsAwarded pid =
            some (if oid == correctId then settings.pointsCorrectAnswer
              else 0) := by
          simp only [processVote, hp, ho2]
          exact objGet_objSet_same _ _ _
        have hother := foldl_processVote_key_other settings options correctId
          pid rest (processVote settings options correctId st (pid, oid))
          (fun w2 hw2 hc => hwnotin (by rw [← hc]; exact List.mem_map.mpr ⟨w2, hw2, rfl⟩))
        exact hother.1.trans hstep
      · have hpidin : pid ∈ rest.map Prod.fst :=
          List.mem_map_of_mem Prod.fst hmemr
        have hne : w.1 ≠ pid := fun hc => hwnotin (hc ▸ hpidin)
        have hfound2 : (lookupPlayer ((processVote settings options correctId
            st w)).players pid).isSome := by
          rw [lookupPlayer_isSome_eq_of_lookupTeam _ st.players pid
            (processVote_lookupTeam settings options correctId st w pid)]
          exact hfound
        exact ih (processVote settings options correctId st w) pid oid
          hndrest hmemr hfound2 hfind

/-- An id that matches no player is never written by the confusion loop
either. -/
theorem calcPhase2_unknown (settings : GameSettings)
    (votes : List (String × String)) (pid : String) :
    ∀ (options : List RoundOption) (st : CalcState),
      lookupPlayer st.players pid = none →
      objGet (calcPhase2 settings votes st options).pointsAwarded pid =
        objGet st.pointsAwarded pid ∧
      lookupPlayer (calcPhase2 settings votes st options).players pid =
        none := by
  intro options
  induction options with
  | nil => intro st h; exact ⟨rfl, h⟩
  | cons o rest ih =>
      intro st h
      unfold calcPhase2 at *
      simp only [List.foldl_cons]
      by_cases hcase : ∃ b, o.origin = OptionOrigin.player b ∧ b = pid
      case pos =>
        obtain ⟨b, hb, rfl⟩ := hcase
        rw [processOption_unknown settings votes st o b hb h]
        exact ih st h
      have hother : ∀ b, o.origin = OptionOrigin.player b → b ≠ pid :=
        fun b hb hc => hcase ⟨b, hb, hc⟩
      have hstep := processOption_other settings votes st o pid hother
      have hnone : lookupPlayer (processOption settings votes st
          o).players pid = none := by
        rw [lookupPlayer_none_iff_lookupTeam,
          processOption_lookupTeam settings votes st o pid,
          ← lookupPlayer_none_iff_lookupTeam]
        exact h
      have hrest := ih (processOption settings votes st o) hnone
      exact ⟨hrest.1.trans hstep.1, hrest.2⟩

/--
C2: in `calculateRoundResults`, for every option authored by a (present,
teamed) player: the confusion bonus equals the number of voters for that
option who are not the author, have a team, and are on the team opposite
the author's, times `settings.pointsConfuseOpponent`; the voter list is
recorded as the author's confusion result exactly when non-empty; the
bonus is added to the author's `result.pointsAwarded` entry, individual
score and team total on top of whatever the vote loop (correct-answer
points) already awarded; same-team voters never appear in the list; and
the vote-loop award for the author is exactly their own vote's
correct-answer points.
-/
theorem C2_calculateRoundResults (lobby : Lobby) (now : Nat)
    (gs : BullGameState) (round : BullRound) (correctOption : RoundOption)
    (opt : RoundOption) (A : String) (pa : Player) (t : Team)
    (hgs : lobby.gameState = some gs)
    (hround : getCurrentRound gs = some round)
    (hcorrect : round.options.find?
      (fun o => o.origin == OptionOrigin.correct) = some correctOption)
    (hopt : opt ∈ round.options)
    (horigin : opt.origin = OptionOrigin.player A)
    (hauthors : (playerOptionAuthors round.options).Nodup)
    (hA : lookupPlayer lobby.players A = some pa)
    (hteam : pa.team = some t) :
    ∃ lobby2 result,
      calculateRoundResults lobby now = Except.ok (lobby2, result) ∧
      (objGet result.confusionResults A =
        if (confusedVoters lobby.players A pa.team opt.id round.votes).isEmpty
        then none
        else some (confusedVoters lobby.players A pa.team opt.id round.votes)) ∧
      ((objGet result.pointsAwarded A).getD 0 =
        (objGet (calcPhase1 lobby.settings round.options correctOption.id
            lobby.players gs.scores round.pointsAwarded
            round.votes).pointsAwarded A).getD 0 +
          (confusedVoters lobby.players A pa.team opt.id round.votes).length *
            lobby.settings.pointsConfuseOpponent) ∧
      (scoreOf lobby2.players A =
        (scoreOf (calcPhase1 lobby.settings round.options correctOption.id
            lobby.players gs.scores round.pointsAwarded
            round.votes).players A).map
          (fun x => x +
            (confusedVoters lobby.players A pa.team opt.id
              round.votes).length * lobby.settings.pointsConfuseOpponent)) ∧
      (scoreFor result.newScores t =
        scoreFor (calcPhase1 lobby.settings round.options correctOption.id
            lobby.players gs.scores round.pointsAwarded
            round.votes).newScores t +
          (round.options.map (optBonusTo lobby.players round.votes
            lobby.settings t)).sum) ∧
      (optBonusTo lobby.players round.votes lobby.settings t opt =
        (confusedVoters lobby.players A pa.team opt.id round.votes).length *
          lobby.settings.pointsConfuseOpponent) ∧
      (∀ v ∈ confusedVoters lobby.players A pa.team opt.id round.votes,
        v ≠ A ∧ ∃ voter, lookupPlayer lobby.players v = some voter ∧
          voter.team.isSome ∧ voter.team ≠ some t) ∧
      ((round.votes.map Prod.fst).Nodup → ∀ oid, (A, oid) ∈ round.votes →
        (round.options.find? (fun o => o.id == oid)).isSome →
        objGet (calcPhase1 lobby.settings round.options correctOption.id
            lobby.players gs.scores round.pointsAwarded
            round.votes).pointsAwarded A =
          some (if oid == correctOption.id then
            lobby.settings.pointsCorrectAnswer else 0)) := by
  have hTeamLobby : lookupTeam lobby.players A = some pa.team := by
    unfold lookupTeam
    rw [hA]
    rfl
  obtain ⟨L, R, hsplit⟩ := List.append_of_mem hopt
  have hpa2 : playerOptionAuthors round.options =
      playerOptionAuthors L ++ A :: playerOptionAuthors R := by
    rw [hsplit]
    unfold playerOptionAuthors
    rw [List.filterMap_append, List.filterMap_cons]
    simp only [horigin]
  have hnodup2 := hauthors
  rw [hpa2] at hnodup2
  obtain ⟨hndL, hndAR, hdisj⟩ := List.nodup_append.mp hnodup2
  have hAnotL : A ∉ playerOptionAuthors L := by
    intro hmem
    exact hdisj hmem (List.mem_cons_self A _)
  have hAnotR : A ∉ playerOptionAuthors R := (List.nodup_cons.mp hndAR).1
  have hLa : ∀ o ∈ L, ∀ b, o.origin = OptionOrigin.player b → b ≠ A := by
    intro o ho b hb hc
    subst hc
    apply hAnotL
    unfold playerOptionAuthors
    exact List.mem_filterMap.mpr ⟨o, ho, by rw [hb]⟩
  have hRa : ∀ o ∈ R, ∀ b, o.origin = OptionOrigin.player b → b ≠ A := by
    intro o ho b hb hc
    subst hc
    apply hAnotR
    unfold playerOptionAuthors
    exact List.mem_filterMap.mpr ⟨o, ho, by rw [hb]⟩
  have hmidTeam : ∀ x, lookupTeam (calcPhase1 lobby.settings round.options
      correctOption.id lobby.players gs.scores round.pointsAwarded
      round.votes).players x = lookupTeam lobby.players x := by
    intro x
    exact foldl_processVote_lookupTeam lobby.settings round.options
      correctOption.id round.votes _ x
  have hstLTeam : ∀ x, lookupTeam (calcPhase2 lobby.settings round.votes
      (calcPhase1 lobby.settings round.options correctOption.id
        lobby.players gs.scores round.pointsAwarded round.votes)
      L).players x = lookupTeam lobby.players x := by
    intro x
    exact (calcPhase2_lookupTeam lobby.settings round.votes L _ x).trans
      (hmidTeam x)
  have hstLA := (hstLTeam A).trans hTeamLobby
  unfold lookupTeam at hstLA
  cases hlk : lookupPlayer (calcPhase2 lobby.settings round.votes
      (calcPhase1 lobby.settings round.options correctOption.id
        lobby.players gs.scores round.pointsAwarded round.votes)
      L).players A with
  | none => rw [hlk] at hstLA; cases hstLA
  | some author2 =>
  rw [hlk] at hstLA
  have hteamA2 : author2.team = pa.team := by
    simpa using hstLA
  have hconfEq : confusedVoters (calcPhase2 lobby.settings round.votes
      (calcPhase1 lobby.settings round.options correctOption.id
        lobby.players gs.scores round.pointsAwarded round.votes)
      L).players A author2.team opt.id round.votes =
      confusedVoters lobby.players A pa.team opt.id round.votes := by
    rw [hteamA2]
    exact confusedVoters_congr _ _ hstLTeam A pa.team opt.id round.votes
  have hself := processOption_self lobby.settings round.votes _ opt A author2
    horigin hlk
  have hR2 := calcPhase2_other lobby.settings round.votes A R
    (processOption lobby.settings round.votes (calcPhase2 lobby.settings
      round.votes (calcPhase1 lobby.settings round.options correctOption.id
        lobby.players gs.scores round.pointsAwarded round.votes) L) opt) hRa
  have hL2 := calcPhase2_other lobby.settings round.votes A L
    (calcPhase1 lobby.settings round.options correctOption.id
      lobby.players gs.scores round.pointsAwarded round.votes) hLa
  have hfin : calcPhase2 lobby.settings round.votes
      (calcPhase1 lobby.settings round.options correctOption.id
        lobby.players gs.scores round.pointsAwarded round.votes)
      round.options =
      calcPhase2 lobby.settings round.votes
        (processOption lobby.settings round.votes
          (calcPhase2 lobby.settings round.votes
            (calcPhase1 lobby.settings round.options correctOption.id
              lobby.players gs.scores round.pointsAwarded round.votes) L)
          opt) R := by
    unfold calcPhase2
    rw [hsplit, List.foldl_append, List.foldl_cons]
  have hmidconf : (calcPhase1 lobby.settings round.options correctOption.id
      lobby.players gs.scores round.pointsAwarded
      round.votes).confusionResults = [] := by
    exact foldl_processVote_confusion lobby.settings round.options
      correctOption.id round.votes _
  simp only [calculateRoundResults, hgs, hround, hcorrect]
  refine ⟨_, _, rfl, ?_, ?_, ?_, ?_, ?_, ?_, ?_⟩
  · rw [hfin, hR2.2.1, hself.1, hL2.2.1, hmidconf, hconfEq]
    cases (confusedVoters lobby.players A pa.team opt.id round.votes).isEmpty
      <;> simp [objGet]
  · rw [hfin, hR2.1, hself.2.1, hL2.1, hconfEq]
  · rw [hfin, hR2.2.2, hself.2.2.1, hL2.2.2, hconfEq]
  · rw [calcPhase2_newScores lobby.settings round.votes round.options _ t]
    have hcongr : round.options.map (optBonusTo (calcPhase1 lobby.settings
        round.options correctOption.id lobby.players gs.scores
        round.pointsAwarded round.votes).players round.votes
        lobby.settings t) =
        round.options.map (optBonusTo lobby.players round.votes
          lobby.settings t) := by
      apply List.map_congr_left
      intro o2 _
      exact optBonusTo_congr _ _ hmidTeam round.votes lobby.settings t o2
    rw [hcongr]
  · simp only [optBonusTo, horigin, hA]
    rw [hteam]
    rw [if_pos rfl]
  · intro v hv
    have hpred := List.of_mem_filter hv
    by_cases hva : v = A
    · rw [if_pos (by simpa using hva)] at hpred
      cases hpred
    · rw [if_neg (by simpa using hva)] at hpred
      cases hlk2 : lookupPlayer lobby.players v with
      | none => rw [hlk2] at hpred; cases hpred
      | some voter =>
          rw [hlk2] at hpred
          simp only [Bool.and_eq_true, bne_iff_ne] at hpred
          refine ⟨hva, voter, rfl, hpred.1, ?_⟩
          rw [← hteam]
          exact hpred.2
  · intro hnd oid hmem hfind
    exact foldl_processVote_char lobby.settings round.options
      correctOption.id round.votes _ A oid hnd hmem
      (by dsimp only; rw [hA]; rfl) hfind

/-! Concrete voting scenario for the C2 witness: the blue player's bluff
("o3") is voted by the red player; the blue player votes correctly. -/

def cex2Correct : RoundOption :=
  { id := "o1", text := "Fay", origin := OptionOrigin.correct, position := 1 }

def cex2Opt : RoundOption :=
  { id := "o3", text := "Pepe", origin := OptionOrigin.player "b1",
    position := 3 }

def cex2Round : BullRound :=
  { number := 1, question := "¿Qué apodo tenía Fabrizio cuando chico?",
    correctAnswer := "Fay", incorrectAnswer := "Caballero",
    suggestedFormat := none, selectedPlayers := { blue := "b1", red := "r1" },
    playerAnswers := [("b1", "Pepe"), ("r1", "Toto")], playersReady := [],
    options := [cex2Correct,
      { id := "o2", text := "Caballero", origin := OptionOrigin.incorrect,
        position := 2 },
      cex2Opt,
      { id := "o4", text := "Toto", origin := OptionOrigin.player "r1",
        position := 4 }],
    votes := [("r1", "o3"), ("b1", "o1")],
    status := RoundStatus.voting, pointsAwarded := [], startedAt := 0,
    finishedAt := none }

def cex2GameState : BullGameState :=
  { currentRound := 1, totalRounds := 5, phase := GamePhase.voting,
    rounds := [cex2Round], scores := { blue := 0, red := 0 },
    timeRemaining := none, winner := none }

def cex2Lobby : Lobby := { sampleLobby with gameState := some cex2GameState }

/-- Witness for C2 at the concrete voting scenario. -/
theorem C2_witness :
    ∃ lobby2 result,
      calculateRoundResults cex2Lobby 0 = Except.ok (lobby2, result) ∧
      (objGet result.confusionResults "b1" =
        if (confusedVoters cex2Lobby.players "b1" samplePlayerBlue.team
            cex2Opt.id cex2Round.votes).isEmpty
        then none
        else some (confusedVoters cex2Lobby.players "b1"
          samplePlayerBlue.team cex2Opt.id cex2Round.votes)) ∧
      ((objGet result.pointsAwarded "b1").getD 0 =
        (objGet (calcPhase1 cex2Lobby.settings cex2Round.options
            cex2Correct.id cex2Lobby.players cex2GameState.scores
            cex2Round.pointsAwarded
            cex2Round.votes).pointsAwarded "b1").getD 0 +
          (confusedVoters cex2Lobby.players "b1" samplePlayerBlue.team
            cex2Opt.id cex2Round.votes).length *
            cex2Lobby.settings.pointsConfuseOpponent) ∧
      (scoreOf lobby2.players "b1" =
        (scoreOf (calcPhase1 cex2Lobby.settings cex2Round.options
            cex2Correct.id cex2Lobby.players cex2GameState.scores
            cex2Round.pointsAwarded cex2Round.votes).players "b1").map
          (fun x => x +
            (confusedVoters cex2Lobby.players "b1" samplePlayerBlue.team
              cex2Opt.id cex2Round.votes).length *
              cex2Lobby.settings.pointsConfuseOpponent)) ∧
      (scoreFor result.newScores Team.blue =
        scoreFor (calcPhase1 cex2Lobby.settings cex2Round.options
            cex2Correct.id cex2Lobby.players cex2GameState.scores
            cex2Round.pointsAwarded cex2Round.votes).newScores Team.blue +
          (cex2Round.options.map (optBonusTo cex2Lobby.players
            cex2Round.votes cex2Lobby.settings Team.blue)).sum) ∧
      (optBonusTo cex2Lobby.players cex2Round.votes cex2Lobby.settings
          Team.blue cex2Opt =
        (confusedVoters cex2Lobby.players "b1" samplePlayerBlue.team
          cex2Opt.id cex2Round.votes).length *
          cex2Lobby.settings.pointsConfuseOpponent) ∧
      (∀ v ∈ confusedVoters cex2Lobby.players "b1" samplePlayerBlue.team
          cex2Opt.id cex2Round.votes,
        v ≠ "b1" ∧ ∃ voter, lookupPlayer cex2Lobby.players v = some voter ∧
          voter.team.isSome ∧ voter.team ≠ some Team.blue) ∧
      ((cex2Round.votes.map Prod.fst).Nodup → ∀ oid,
        ("b1", oid) ∈ cex2Round.votes →
        (cex2Round.options.find? (fun o => o.id == oid)).isSome →
        objGet (calcPhase1 cex2Lobby.settings cex2Round.options
            cex2Correct.id cex2Lobby.players cex2GameState.scores
            cex2Round.pointsAwarded cex2Round.votes).pointsAwarded "b1" =
          some (if oid == cex2Correct.id then
            cex2Lobby.settings.pointsCorrectAnswer else 0)) :=
  C2_calculateRoundResults cex2Lobby 0 cex2GameState cex2Round cex2Correct
    cex2Opt "b1" samplePlayerBlue Team.blue rfl (by decide) (by decide)
    (by decide) rfl (by decide) (by decide) rfl

/--
C10: a recorded vote whose voter id matches no player in `lobby.players`
is skipped entirely (the vote-loop step is the identity there); such an
id never counts toward any author's confusion voters; a player-authored
option whose author is missing yields nothing (the confusion-loop step is
the identity); and in the final result the unknown id appears in neither
the `votes` map nor the `pointsAwarded` map.
-/
theorem C10_unknown_skipped :
    (∀ (settings : GameSettings) (options : List RoundOption)
        (correctId : String) (st : CalcState) (pid oid : String),
      lookupPlayer st.players pid = none →
      processVote settings options correctId st (pid, oid) = st) ∧
    (∀ (settings : GameSettings) (votes : List (String × String))
        (st : CalcState) (o : RoundOption) (a : String),
      o.origin = OptionOrigin.player a →
      lookupPlayer st.players a = none →
      processOption settings votes st o = st) ∧
    (∀ (ps : List Player) (a : String) (authorTeam : Option Team)
        (oid : String) (votes : List (String × String)) (v : String),
      lookupPlayer ps v = none →
      v ∉ confusedVoters ps a authorTeam oid votes) ∧
    (∀ (lobby : Lobby) (now : Nat) (pid : String) (lobby2 : Lobby)
        (result : RoundResult),
      calculateRoundResults lobby now = Except.ok (lobby2, result) →
      lookupPlayer lobby.players pid = none →
      objGet result.votes pid = none ∧
        objGet result.pointsAwarded pid = none) := by
  refine ⟨?_, ?_, ?_, ?_⟩
  · intro settings options correctId st pid oid h
    exact processVote_unknown settings options correctId st pid oid h
  · intro settings votes st o a ho h
    exact processOption_unknown settings votes st o a ho h
  · intro ps a authorTeam oid votes v hl hmem
    have hpred := List.of_mem_filter hmem
    by_cases hva : v = a
    · rw [if_pos (by simpa using hva)] at hpred
      cases hpred
    · rw [if_neg (by simpa using hva), hl] at hpred
      cases hpred
  · intro lobby now pid lobby2 result hok hnone
    cases hgs : lobby.gameState with
    | none => simp [calculateRoundResults, hgs] at hok
    | some gs =>
        cases hr : getCurrentRound gs with
        | none => simp [calculateRoundResults, hgs, hr] at hok
        | some round =>
            cases hcor : round.options.find?
                (fun o => o.origin == OptionOrigin.correct) with
            | none => simp [calculateRoundResults, hgs, hr, hcor] at hok
            | some correctOption =>
                simp only [calculateRoundResults, hgs, hr, hcor,
                  Except.ok.injEq, Prod.mk.injEq] at hok
                obtain ⟨h1, h2⟩ := hok
                subst h1
                subst h2
                have hph1 := foldl_processVote_unknown lobby.settings
                  round.options correctOption.id pid round.votes
                  { players := lobby.players, votesOut := [],
                    pointsAwarded := [],
                    roundPoints := round.pointsAwarded,
                    newScores := gs.scores, confusionResults := [] } hnone
                have hph2 := calcPhase2_unknown lobby.settings round.votes
                  pid round.options
                  (calcPhase1 lobby.settings round.options correctOption.id
                    lobby.players gs.scores round.pointsAwarded round.votes)
                  hph1.2.2
                constructor
                · dsimp only
                  rw [calcPhase2_votesOut]
                  exact hph1.2.1
                · dsimp only
                  exact hph2.1.trans hph1.1

/-- Witness for C10: a vote and a confusion check for an id absent from
the roster. -/
def cex10St : CalcState :=
  { players := [samplePlayerBlue, samplePlayerRed], votesOut := [],
    pointsAwarded := [], roundPoints := [],
    newScores := { blue := 0, red := 0 }, confusionResults := [] }

theorem C10_witness :
    processVote DEFAULT_GAME_SETTINGS cex2Round.options "o1" cex10St
      ("ghost", "o1") = cex10St ∧
    "ghost" ∉ confusedVoters cex10St.players "b1" (some Team.blue) "o3"
      cex2Round.votes :=
  ⟨C10_unknown_skipped.1 DEFAULT_GAME_SETTINGS cex2Round.options "o1"
      cex10St "ghost" "o1" (by decide),
   C10_unknown_skipped.2.2.1 cex10St.players "b1" (some Team.blue) "o3"
      cex2Round.votes "ghost" (by decide)⟩

/-! ## `utils/playerSelector.ts`

JS numbers in the factor computation are embedded as `ℚ` (the source
only uses `+ - * / min max` on them).  `Math.random()` draws are `ℚ`
oracle parameters.  The `Map<string, PlayerParticipation>` is embedded
as its insertion-ordered value list, keyed by the `playerId` field. -/

/-- A raw `throw new Error(msg)` (as opposed to a typed `GameError`). -/
inductive ThrownError
| gameErr (e : GameError)
| plainErr (msg : String)
deriving DecidableEq, Repr

/-- `interface PlayerParticipation` from `utils/playerSelector.ts`. -/
structure PlayerParticipation where
  playerId : String
  lastRoundPlayed : Int
  timesPlayed : Nat
  factor : ℚ
deriving DecidableEq, Repr

/-- The mutable state of a `PlayerSelector` instance. -/
structure SelectorState where
  history : List PlayerParticipation
  currentRound : Nat
deriving DecidableEq, Repr

/-- `this.participationHistory.get(pid)`. -/
def findPart (history : List PlayerParticipation) (pid : String) :
    Option PlayerParticipation :=
  history.find? (fun p => p.playerId == pid)

/-- `this.participationHistory.set(p.playerId, p)`. -/
def setPart (history : List PlayerParticipation) (p : PlayerParticipation) :
    List PlayerParticipation :=
  match history with
  | [] => [p]
  | q :: rest =>
      if q.playerId == p.playerId then p :: rest else q :: setPart rest p

/-- In-place mutation of the participation record found by id. -/
def updFirstPart (history : List PlayerParticipation) (pid : String)
    (f : PlayerParticipation → PlayerParticipation) :
    List PlayerParticipation :=
  match history with
  | [] => []
  | p :: rest =>
      if p.playerId == pid then f p :: rest else p :: updFirstPart rest pid f

/-- `PlayerSelector.getAverageTimesPlayed`. -/
def getAverageTimesPlayed (history : List PlayerParticipation) : ℚ :=
  (history.map (fun p => (p.timesPlayed : ℚ))).sum / history.length

/-- `PlayerSelector.calculatePlayerFactor`. -/
def calculatePlayerFactor (history : List PlayerParticipation)
    (currentRound : Nat) (p : PlayerParticipation) : ℚ :=
  if p.lastRoundPlayed = -1 then 2
  else
    let roundsSinceLastPlay : ℚ :=
      (currentRound : ℚ) - (p.lastRoundPlayed : ℚ)
    let recencyFactor := min 2 (1 + roundsSinceLastPlay * 0.2)
    let avgTimesPlayed := getAverageTimesPlayed history
    let frequencyRatio := (p.timesPlayed : ℚ) / max avgTimesPlayed 1
    let frequencyFactor := max 0.1 (1 - (frequencyRatio - 1) * 0.3)
    recencyFactor * frequencyFactor

/-- `PlayerSelector.normalizeFactors`. -/
def normalizeFactors (history : List PlayerParticipation) :
    List PlayerParticipation :=
  let totalFactor := (history.map (fun p => p.factor)).sum
  if totalFactor > 0 then
    let normalizer := (history.length : ℚ) / totalFactor
    history.map (fun p => { p with factor := max 0.1 (p.factor * normalizer) })
  else history

/-- `PlayerSelector.updateFactors` (reads `this.currentRound` and mutates
every record's `factor` in place). -/
def updateFactors (currentRound : Nat)
    (history : List PlayerParticipation) : List PlayerParticipation :=
  if currentRound = 0 then history.map (fun p => { p with factor := 1 })
  else
    normalizeFactors (history.map (fun p =>
      { p with factor := calculatePlayerFactor history currentRound p }))

/-- `PlayerSelector.initialize` (team lists passed as id lists). -/
def initializeSelector (bluePlayers redPlayers : List String) :
    SelectorState :=
  let history := (bluePlayers ++ redPlayers).foldl
    (fun h pid => setPart h
      { playerId := pid, lastRoundPlayed := -1, timesPlayed := 0,
        factor := 1 }) []
  { history := updateFactors 0 history, currentRound := 0 }

/-- `PlayerSelector.updatePlayerParticipation`. -/
def updatePlayerParticipation (sel : SelectorState) (pid : String) :
    SelectorState :=
  { sel with history := updFirstPart sel.history pid (fun p =>
      { p with lastRoundPlayed := (sel.currentRound : Int),
               timesPlayed := p.timesPlayed + 1 }) }

/-- The cumulative-probability walk of `selectPlayerFromTeam`
(`random <= accumulator` after `accumulator += prob`). -/
def roulette (rand : ℚ) (l : List (String × ℚ)) (acc : ℚ) : Option String :=
  match l with
  | [] => none
  | (id, prob) :: rest =>
      if rand ≤ acc + prob then some id else roulette rand rest (acc + prob)

/-- `PlayerSelector.selectPlayerFromTeam` (ids; the random draw is the
oracle `rand`; `participation?.factor || 1.0` is JS truthiness: a missing
record or a zero factor falls back to `1.0`). -/
def selectPlayerFromTeam (sel : SelectorState) (players : List String)
    (rand : ℚ) : Except String String :=
  match players with
  | [] => .error "No hay jugadores en el equipo"
  | [p] => .ok p
  | _ =>
    let playerFactors := players.map (fun id =>
      (id, match findPart sel.history id with
           | some participation =>
               if participation.factor = 0 then 1 else participation.factor
           | none => 1))
    let totalFactor := (playerFactors.map (fun pf => pf.2)).sum
    let probabilities := playerFactors.map
      (fun pf => (pf.1, pf.2 / totalFactor))
    match roulette rand probabilities 0 with
    | some id => .ok id
    | none => .ok (((probabilities.getLast?).map (fun pf => pf.1)).getD "")

/-- `PlayerSelector.selectPlayersForRound` (ids; `hostId` is the raw
string passed by `startRound`, whose JS truthiness guard is
`hostId = ""`).  The method increments `this.currentRound` *before* the
eligibility checks, so the counter advance survives a throw; the
returned `SelectorState` reflects the mutation in every case. -/
def selectPlayersForRound (sel : SelectorState)
    (bluePlayers redPlayers : List String) (hostId : String)
    (randBlue randRed : ℚ) :
    SelectorState × Except String (String × String) :=
  let sel1 := { sel with currentRound := sel.currentRound + 1 }
  let eligibleBluePlayers :=
    if hostId = "" then bluePlayers
    else bluePlayers.filter (fun p => p ≠ hostId)
  let eligibleRedPlayers :=
    if hostId = "" then redPlayers
    else redPlayers.filter (fun p => p ≠ hostId)
  if eligibleBluePlayers.isEmpty then
    (sel1, .error "No hay jugadores elegibles en el equipo azul (excluyendo host)")
  else if eligibleRedPlayers.isEmpty then
    (sel1, .error "No hay jugadores elegibles en el equipo rojo (excluyendo host)")
  else
    match selectPlayerFromTeam sel1 eligibleBluePlayers randBlue with
    | .error e => (sel1, .error e)
    | .ok bluePlayer =>
      match selectPlayerFromTeam sel1 eligibleRedPlayers randRed with
      | .error e => (sel1, .error e)
      | .ok redPlayer =>
        let sel2 := updatePlayerParticipation sel1 bluePlayer
        let sel3 := updatePlayerParticipation sel2 redPlayer
        let sel4 := { sel3 with
          history := updateFactors sel3.currentRound sel3.history }
        (sel4, .ok (bluePlayer, redPlayer))

/-- One entry of `SAMPLE_QUESTIONS` in `services/gameService.ts`. -/
structure SampleQuestion where
  question : String
  correctAnswer : String
  incorrectAnswer : String
  suggestedFormat : String
deriving DecidableEq, Repr

/-- `SAMPLE_QUESTIONS` (fixed order, 8 rounds). -/
def SAMPLE_QUESTIONS : List SampleQuestion :=
  [{ question := "¿Qué apodo tenía Fabrizio cuando chico?",
     correctAnswer := "Fay", incorrectAnswer := "Caballero",
     suggestedFormat := "Escribe el apodo (ej: \"Fay\")" },
   { question := "¿A qué edad tomó por primera vez Fabrizio?",
     correctAnswer := "18", incorrectAnswer := "16",
     suggestedFormat := "Solo el número (ej: \"18\")" },
   { question := "¿Cuál es el segundo nombre de Fabrizio?",
     correctAnswer := "Giordano", incorrectAnswer := "Lorenzo",
     suggestedFormat := "Solo el nombre (ej: \"Giordano\")" },
   { question := "¿Cómo se llama el abuelo de Fabrizio?",
     correctAnswer := "Francisco", incorrectAnswer := "Giordano",
     suggestedFormat := "Solo el nombre (ej: \"Francisco\")" },
   { question := "¿A qué edad sacó la licencia de conducir Fabrizio?",
     correctAnswer := "24", incorrectAnswer := "19",
     suggestedFormat := "Solo el número (ej: \"24\")" },
   { question := "¿Cuál es la comida favorita de Fabrizio?",
     correctAnswer := "Lasaña", incorrectAnswer := "Pastel de choclo",
     suggestedFormat := "Nombre del plato (ej: \"Lasaña\")" },
   { question := "¿En qué comuna nació Fabrizio?",
     correctAnswer := "Providencia", incorrectAnswer := "Recoleta",
     suggestedFormat := "Nombre de la comuna (ej: \"Providencia\")" },
   { question := "¿Cuántas veces ha viajado en avión Fabrizio?",
     correctAnswer := "0", incorrectAnswer := "2",
     suggestedFormat := "Solo el número (ej: \"0\")" }]

/-- `GameService.startRound`.  Returns the (possibly mutated) lobby, the
(possibly mutated) selector state, and the result.  A raw `Error` thrown
by the selector propagates as `ThrownError.plainErr`. -/
def startRound (lobby : Lobby) (sel : SelectorState) (roundNumber : Nat)
    (randBlue randRed : ℚ) (now : Nat) :
    Lobby × SelectorState × Except ThrownError BullRound :=
  match lobby.gameState with
  | none => (lobby, sel, .error (ThrownError.gameErr
      { message := "El juego no ha sido iniciado",
        code := ERROR_CODES_INVALID_PHASE }))
  | some gs =>
    if roundNumber > lobby.settings.maxRounds then
      (lobby, sel, .error (ThrownError.gameErr
        { message := "Número de ronda inválido",
          code := ERROR_CODES_VALIDATION_ERROR }))
    else
      let questionIndex := roundNumber - 1
      let questionData :=
        match SAMPLE_QUESTIONS.get? questionIndex with
        | some q => q
        | none => SAMPLE_QUESTIONS.getLast (by decide)
      match selectPlayersForRound sel lobby.teams.blue lobby.teams.red
          lobby.hostId randBlue randRed with
      | (sel2, .error e) => (lobby, sel2, .error (ThrownError.plainErr e))
      | (sel2, .ok (bluePlayer, redPlayer)) =>
        let round : BullRound :=
          { number := roundNumber, question := questionData.question,
            correctAnswer := questionData.correctAnswer,
            incorrectAnswer := questionData.incorrectAnswer,
            suggestedFormat := some questionData.suggestedFormat,
            selectedPlayers := { blue := bluePlayer, red := redPlayer },
            playerAnswers := [], playersReady := [], options := [],
            votes := [], status := RoundStatus.answering,
            pointsAwarded := [], startedAt := now, finishedAt := none }
        let gs2 := { gs with rounds := gs.rounds ++ [round],
                             currentRound := roundNumber,
                             phase := GamePhase.writing }
        ({ lobby with gameState := some gs2 }, sel2, .ok round)

/-- `GameService.startGame`. -/
def startGame (lobby : Lobby) (sel : SelectorState) :
    Lobby × SelectorState × Except GameError BullGameState :=
  if lobby.status ≠ LobbyStatus.waiting then
    (lobby, sel, .error { message := "El juego ya ha comenzado",
                          code := ERROR_CODES_GAME_ALREADY_STARTED })
  else if lobby.teams.blue.length = 0 ∨ lobby.teams.red.length = 0 then
    (lobby, sel, .error
      { message := "Ambos equipos deben tener al menos un jugador",
        code := ERROR_CODES_VALIDATION_ERROR })
  else
    let gameState : BullGameState :=
      { currentRound := 1, totalRounds := lobby.settings.maxRounds,
        phase := GamePhase.waiting, rounds := [],
        scores := { blue := 0, red := 0 }, timeRemaining := none,
        winner := none }
    let sel2 := initializeSelector lobby.teams.blue lobby.teams.red
    ({ lobby with gameState := some gameState,
                  status := LobbyStatus.playing }, sel2, .ok gameState)

theorem calculatePlayerFactor_pos (history : List PlayerParticipation)
    (r : Nat) (p : PlayerParticipation)
    (hlast : p.lastRoundPlayed ≤ (r : Int)) :
    0 < calculatePlayerFactor history r p := by
  unfold calculatePlayerFactor
  by_cases h1 : p.lastRoundPlayed = -1
  · rw [if_pos h1]
    norm_num
  · rw [if_neg h1]
    dsimp only
    have hle : (p.lastRoundPlayed : ℚ) ≤ (r : ℚ) := by
      exact_mod_cast hlast
    have hrecency : (1 : ℚ) ≤
        min 2 (1 + ((r : ℚ) - (p.lastRoundPlayed : ℚ)) * 0.2) := by
      apply le_min
      · norm_num
      · nlinarith
    have hfreq : (0.1 : ℚ) ≤ max 0.1 (1 - ((p.timesPlayed : ℚ) /
        max (getAverageTimesPlayed history) 1 - 1) * 0.3) :=
      le_max_left _ _
    nlinarith

/--
C4: after every selection (round counter `r ≥ 1`, every record's
`lastRoundPlayed ≤ r`), `updateFactors` recomputes each roster member's
factor as 2.0 for never-played members and otherwise
`min(2, 1 + 0.2·(r − lastRoundPlayed)) × max(0.1, 1 − 0.3·(timesPlayed /
max(avg, 1) − 1))`, and then replaces every factor (the 2.0 of
never-played members included) by `max(0.1, factor × rosterSize / Σ
factors)`; the factor sum is positive, so the normalisation branch
always fires on a non-empty roster.
-/
theorem C4_updateFactors (history : List PlayerParticipation) (r : Nat)
    (hr : 1 ≤ r)
    (hlast : ∀ p ∈ history, p.lastRoundPlayed ≤ (r : Int)) :
    (history ≠ [] →
      0 < (history.map (fun q => calculatePlayerFactor history r q)).sum) ∧
    (updateFactors r history).map (fun p => p.factor) =
      history.map (fun p =>
        max 0.1
          ((if p.lastRoundPlayed = -1 then (2 : ℚ)
            else
              min 2 (1 + ((r : ℚ) - (p.lastRoundPlayed : ℚ)) * 0.2) *
                max 0.1 (1 - ((p.timesPlayed : ℚ) /
                  max (getAverageTimesPlayed history) 1 - 1) * 0.3)) *
            ((history.length : ℚ) /
              (history.map
                (fun q => calculatePlayerFactor history r q)).sum))) := by
  have hpos : ∀ x ∈ history.map (fun q => calculatePlayerFactor history r q),
      0 < x := by
    intro x hx
    obtain ⟨p, hp, hpx⟩ := List.mem_map.mp hx
    rw [← hpx]
    exact calculatePlayerFactor_pos history r p (hlast p hp)
  have hsumpos : history ≠ [] →
      0 < (history.map (fun q => calculatePlayerFactor history r q)).sum := by
    intro hne
    exact List.sum_pos _ hpos (by simpa using hne)
  refine ⟨hsumpos, ?_⟩
  cases hhist : history with
  | nil =>
      unfold updateFactors
      rw [if_neg (by omega)]
      rfl
  | cons p0 rest =>
      rw [← hhist]
      have hne : history ≠ [] := by rw [hhist]; intro hc; cases hc
      unfold updateFactors
      rw [if_neg (by omega)]
      unfold normalizeFactors
      dsimp only
      have htot : ((history.map (fun p =>
          { p with factor := calculatePlayerFactor history r p })).map
            (fun p => p.factor)).sum =
          (history.map (fun q => calculatePlayerFactor history r q)).sum := by
        rw [List.map_map]
        rfl
      rw [htot, if_pos (hsumpos hne), List.length_map, List.map_map,
        List.map_map]
      rfl

/-- Witness for C4 at a concrete two-member roster after round 1. -/
def cex4History : List PlayerParticipation :=
  [{ playerId := "b1", lastRoundPlayed := 1, timesPlayed := 1, factor := 1 },
   { playerId := "b2", lastRoundPlayed := -1, timesPlayed := 0, factor := 2 }]

theorem C4_witness :
    (cex4History ≠ [] →
      0 < (cex4History.map
        (fun q => calculatePlayerFactor cex4History 1 q)).sum) ∧
    (updateFactors 1 cex4History).map (fun p => p.factor) =
      cex4History.map (fun p =>
        max 0.1
          ((if p.lastRoundPlayed = -1 then (2 : ℚ)
            else
              min 2 (1 + ((1 : ℚ) - (p.lastRoundPlayed : ℚ)) * 0.2) *
                max 0.1 (1 - ((p.timesPlayed : ℚ) /
                  max (getAverageTimesPlayed cex4History) 1 - 1) * 0.3)) *
            ((cex4History.length : ℚ) /
              (cex4History.map
                (fun q => calculatePlayerFactor cex4History 1 q)).sum))) :=
  C4_updateFactors cex4History 1 (by decide) (by decide)

/--
C9 (amended): when `startRound` fails because a team has no eligible
player after host exclusion, the lobby (game state and rounds history
included) and the selector's participation records are unchanged, but
the selector's internal round counter has already been incremented by
one — `selectPlayersForRound` increments it before the eligibility
check, so the failure does not restore it.
-/
theorem C9_startRound_failure (lobby : Lobby) (sel : SelectorState)
    (roundNumber : Nat) (randBlue randRed : ℚ) (now : Nat)
    (gs : BullGameState) (hgs : lobby.gameState = some gs)
    (hrn : roundNumber ≤ lobby.settings.maxRounds)
    (helig : (if lobby.hostId = "" then lobby.teams.blue
        else lobby.teams.blue.filter (fun p => p ≠ lobby.hostId)).isEmpty =
          true ∨
      (if lobby.hostId = "" then lobby.teams.red
        else lobby.teams.red.filter (fun p => p ≠ lobby.hostId)).isEmpty =
          true) :
    ∃ msg, startRound lobby sel roundNumber randBlue randRed now =
      (lobby,
        { history := sel.history, currentRound := sel.currentRound + 1 },
        Except.error (ThrownError.plainErr msg)) := by
  simp only [startRound, hgs]
  rw [if_neg (by omega)]
  by_cases hb : (if lobby.hostId = "" then lobby.teams.blue
      else lobby.teams.blue.filter (fun p => p ≠ lobby.hostId)).isEmpty =
        true
  · refine ⟨"No hay jugadores elegibles en el equipo azul (excluyendo host)",
      ?_⟩
    have hsel : selectPlayersForRound sel lobby.teams.blue lobby.teams.red
        lobby.hostId randBlue randRed =
        ({ sel with currentRound := sel.currentRound + 1 },
          Except.error
            "No hay jugadores elegibles en el equipo azul (excluyendo host)") := by
      unfold selectPlayersForRound
      rw [if_pos hb]
    rw [hsel]
  · have hred : (if lobby.hostId = "" then lobby.teams.red
        else lobby.teams.red.filter (fun p => p ≠ lobby.hostId)).isEmpty =
          true := by
      rcases helig with h | h
      · exact absurd h hb
      · exact h
    refine ⟨"No hay jugadores elegibles en el equipo rojo (excluyendo host)",
      ?_⟩
    have hsel : selectPlayersForRound sel lobby.teams.blue lobby.teams.red
        lobby.hostId randBlue randRed =
        ({ sel with currentRound := sel.currentRound + 1 },
          Except.error
            "No hay jugadores elegibles en el equipo rojo (excluyendo host)") := by
      unfold selectPlayersForRound
      rw [if_neg hb, if_pos hred]
    rw [hsel]

/-- C9 counterexample fixtures: the blue team holds only the host, so
round selection fails; the selector's counter still advances. -/
def cex9Lobby : Lobby :=
  { code := "ABC123", hostId := "h0", hostSocketId := "hs",
    players := [samplePlayerRed],
    teams := { blue := ["h0"], red := ["r1"] },
    status := LobbyStatus.playing, createdAt := 0, lastActivity := 0,
    gameState := some sampleGameState, settings := DEFAULT_GAME_SETTINGS }

def cex9Sel : SelectorState := { history := [], currentRound := 0 }

/-- Counterexample for C9 as stated: on this failing `startRound` call,
the selector's internal round counter does *not* equal its pre-call
value (it was incremented before the throw). -/
theorem C9_counterexample :
    (startRound cex9Lobby cex9Sel 1 0 0 0).2.1.currentRound ≠
      cex9Sel.currentRound ∧
    (startRound cex9Lobby cex9Sel 1 0 0 0).2.2 =
      Except.error (ThrownError.plainErr
        "No hay jugadores elegibles en el equipo azul (excluyendo host)") :=
  ⟨by decide, rfl⟩

/-- Witness for the amended C9 at the concrete failing call. -/
theorem C9_witness :
    ∃ msg, startRound cex9Lobby cex9Sel 1 0 0 0 =
      (cex9Lobby,
        { history := cex9Sel.history,
          currentRound := cex9Sel.currentRound + 1 },
        Except.error (ThrownError.plainErr msg)) :=
  C9_startRound_failure cex9Lobby cex9Sel 1 0 0 0 sampleGameState rfl
    (by decide) (Or.inl (by decide))

/-! ## `LobbyService` (part of the repository outside `src/src`, embedded
per lobby: the code-keyed registry, code generation and code validation
live around these cores and do not touch team state). -/

/-- Read a team list. -/
def teamList (ts : Teams) (t : Team) : List String :=
  match t with
  | Team.blue => ts.blue
  | Team.red => ts.red

/-- Write a team list. -/
def setTeamList (ts : Teams) (t : Team) (l : List String) : Teams :=
  match t with
  | Team.blue => { ts with blue := l }
  | Team.red => { ts with red := l }

/-- In-place mutation of the first player matching a predicate. -/
def updFirstBy (pred : Player → Bool) (f : Player → Player) :
    List Player → List Player
  | [] => []
  | p :: rest => if pred p then f p :: rest else p :: updFirstBy pred f rest

/-- Removal of a player id from its team list, if it has a team
(`lobby.teams[team] = lobby.teams[team].filter(p => p.id !== playerId)`,
shared by `selectTeam` and `leaveLobby`). -/
def removeFromTeam (ts : Teams) (ot : Option Team) (playerId : String) :
    Teams :=
  match ot with
  | some t => setTeamList ts t
      ((teamList ts t).filter (fun q => q ≠ playerId))
  | none => ts

/-- Embeds `LobbyService.createLobby` (per-lobby core: the registry
capacity check and unique-code generation are registry-level; the
generated code and host UUID are the oracle parameters). -/
def createLobby (socketId lobbyCode hostId : String) (now : Nat) :
    Lobby × String :=
  ({ code := lobbyCode, hostId := hostId, hostSocketId := socketId,
     players := [], teams := { blue := [], red := [] },
     status := LobbyStatus.waiting, createdAt := now, lastActivity := now,
     gameState := none, settings := DEFAULT_GAME_SETTINGS }, hostId)

/-- Embeds `LobbyService.joinLobby` (per-lobby core after code
normalization, code validation and registry lookup; the generated player
UUID is the oracle parameter `playerId`). -/
def joinLobby (lobby : Lobby) (playerName socketId playerId : String)
    (now : Nat) : Except GameError (Lobby × String) :=
  if lobby.status ≠ LobbyStatus.waiting then
    .error { message := "El juego ya ha comenzado",
             code := ERROR_CODES_GAME_ALREADY_STARTED }
  else if MAX_PLAYERS_PER_LOBBY ≤ lobby.players.length then
    .error { message := "El lobby está lleno", code := ERROR_CODES_LOBBY_FULL }
  else if (lobby.players.map (fun p => jsToLower p.name)).contains
      (jsToLower playerName) then
    .error { message := "Ya hay un jugador con ese nombre",
             code := ERROR_CODES_VALIDATION_ERROR }
  else
    let newPlayer : Player :=
      { id := playerId, name := playerName, team := none, isHost := false,
        socketId := socketId, score := 0, isReady := false,
        isConnected := true }
    .ok ({ lobby with players := lobby.players ++ [newPlayer],
                      lastActivity := now }, playerId)

/-- The first player with the given id together with the players before
and after it (`findIndex` + `splice`). -/
def extractFirst (pred : Player → Bool) :
    List Player → Option (List Player × Player × List Player)
  | [] => none
  | p :: rest =>
      if pred p then some ([], p, rest)
      else
        match extractFirst pred rest with
        | none => none
        | some (before, x, after) => some (p :: before, x, after)

/-- Embeds `LobbyService.leaveLobby` (per-lobby core; `none` means the
emptied lobby was deleted from the registry). -/
def leaveLobby (lobby : Lobby) (playerId : String) (now : Nat) :
    Option Lobby × Bool :=
  match extractFirst (fun p => p.id == playerId) lobby.players with
  | none => (some lobby, false)
  | some (before, leavingPlayer, after) =>
    match before ++ after with
    | [] => (none, leavingPlayer.isHost)
    | h :: t =>
        if leavingPlayer.isHost then
          (some { lobby with
            players := { h with isHost := true } :: t,
            teams := removeFromTeam lobby.teams leavingPlayer.team playerId,
            hostId := h.id, lastActivity := now }, leavingPlayer.isHost)
        else
          (some { lobby with
            players := before ++ after,
            teams := removeFromTeam lobby.teams leavingPlayer.team playerId,
            lastActivity := now }, leavingPlayer.isHost)

/-- Embeds `LobbyService.selectTeam` (the source pushes the `Player`
object; the dealiased team lists hold the player's id). -/
def selectTeam (lobby : Lobby) (playerId : String) (team : Team)
    (now : Nat) : Except GameError Lobby :=
  match lookupPlayer lobby.players playerId with
  | none => .error { message := "Jugador no encontrado",
                     code := ERROR_CODES_PLAYER_NOT_FOUND, statusCode := 404 }
  | some player =>
    if lobby.status ≠ LobbyStatus.waiting then
      .error { message := "No se puede cambiar de equipo después de que el juego haya comenzado", code := ERROR_CODES_GAME_ALREADY_STARTED }
    else if 4 ≤ (teamList lobby.teams team).length then
      .error { message := "El equipo está lleno",
               code := ERROR_CODES_LOBBY_FULL }
    else
      let teams1 := removeFromTeam lobby.teams player.team playerId
      .ok { lobby with
        players := updFirstPlayer lobby.players playerId
          (fun p => { p with team := some team }),
        teams := setTeamList teams1 team (teamList teams1 team ++ [playerId]),
        lastActivity := now }

/-- Embeds `LobbyService.toggleReady`. -/
def toggleReady (lobby : Lobby) (playerId : String) (now : Nat) :
    Except GameError Lobby :=
  match lookupPlayer lobby.players playerId with
  | none => .error { message := "Jugador no encontrado",
                     code := ERROR_CODES_PLAYER_NOT_FOUND, statusCode := 404 }
  | some _ =>
    if lobby.status ≠ LobbyStatus.waiting then
      .error { message := "No se puede cambiar el estado ready después de que el juego haya comenzado", code := ERROR_CODES_GAME_ALREADY_STARTED }
    else
      .ok { lobby with
        players := updFirstPlayer lobby.players playerId
          (fun p => { p with isReady := !p.isReady }),
        lastActivity := now }

/-- A `Partial<GameSettings>` patch. -/
structure GameSettingsPatch where
  maxRounds : Option Nat := none
  answerTimeSeconds : Option Nat := none
  voteTimeSeconds : Option Nat := none
  pointsCorrectAnswer : Option Int := none
  pointsConfuseOpponent : Option Int := none
deriving DecidableEq, Repr

/-- Spread merge `{ ...lobby.settings, ...settings }`. -/
def mergeSettings (s : GameSettings) (p : GameSettingsPatch) : GameSettings :=
  { maxRounds := p.maxRounds.getD s.maxRounds,
    answerTimeSeconds := p.answerTimeSeconds.getD s.answerTimeSeconds,
    voteTimeSeconds := p.voteTimeSeconds.getD s.voteTimeSeconds,
    pointsCorrectAnswer := p.pointsCorrectAnswer.getD s.pointsCorrectAnswer,
    pointsConfuseOpponent :=
      p.pointsConfuseOpponent.getD s.pointsConfuseOpponent }

/-- Embeds `LobbyService.updateGameSettings`. -/
def updateGameSettings (lobby : Lobby) (hostId : String)
    (patch : GameSettingsPatch) (now : Nat) : Except GameError Lobby :=
  if lobby.hostId ≠ hostId then
    .error { message := "Solo el host puede cambiar la configuración",
             code := ERROR_CODES_NOT_HOST, statusCode := 403 }
  else if lobby.status ≠ LobbyStatus.waiting then
    .error { message := "No se puede cambiar la configuración después de que el juego haya comenzado", code := ERROR_CODES_GAME_ALREADY_STARTED }
  else
    .ok { lobby with settings := mergeSettings lobby.settings patch,
                     lastActivity := now }

/-- Embeds `LobbyService.updatePlayerSocket`. -/
def updatePlayerSocket (lobby : Lobby) (playerId socketId : String)
    (now : Nat) : Lobby :=
  match lookupPlayer lobby.players playerId with
  | none => lobby
  | some _ =>
    { lobby with
      players := updFirstPlayer lobby.players playerId
        (fun p => { p with socketId := socketId, isConnected := true }),
      lastActivity := now }

/-- Embeds `LobbyService.markPlayerDisconnected` (per-lobby core of the
registry-wide scan). -/
def markPlayerDisconnected (lobby : Lobby) (socketId : String) (now : Nat) :
    Lobby :=
  match lobby.players.find? (fun p => p.socketId == socketId) with
  | none => lobby
  | some _ =>
    { lobby with
      players := updFirstBy (fun p => p.socketId == socketId)
        (fun p => { p with isConnected := false }) lobby.players,
      lastActivity := now }

/-- Embeds `GameService.markPlayerReady`. -/
def markPlayerReady (lobby : Lobby) (playerId : String) :
    Except GameError Lobby :=
  match lobby.gameState with
  | none => .error { message := "El juego no ha sido iniciado",
                     code := ERROR_CODES_INVALID_PHASE }
  | some gs =>
    match getCurrentRound gs with
    | none => .error { message := "No hay ronda activa",
                       code := ERROR_CODES_INVALID_PHASE }
    | some currentRound =>
      if ¬ (currentRound.selectedPlayers.blue = playerId ∨
          currentRound.selectedPlayers.red = playerId) then
        .error { message := "Solo los jugadores seleccionados pueden marcar listo", code := ERROR_CODES_INVALID_PHASE }
      else if truthyStr (objGet currentRound.playerAnswers playerId) = false
          then
        .error { message := "Debes enviar una respuesta antes de marcar listo", code := ERROR_CODES_VALIDATION_ERROR }
      else
        let round2 := { currentRound with
          playersReady := objSet currentRound.playersReady playerId true }
        .ok { lobby with gameState := some { gs with
          rounds := updateRound gs.rounds gs.currentRound round2 } }

/-- Embeds `GameService.submitVote`. -/
def submitVote (lobby : Lobby) (playerId optionId : String) :
    Except GameError Lobby :=
  match lobby.gameState with
  | none => .error { message := "El juego no ha sido iniciado",
                     code := ERROR_CODES_INVALID_PHASE }
  | some gs =>
    if gs.phase ≠ GamePhase.voting then
      .error { message := "No es momento de votar",
               code := ERROR_CODES_INVALID_PHASE }
    else
      match getCurrentRound gs with
      | none => .error { message := "No hay ronda activa",
                         code := ERROR_CODES_INVALID_PHASE }
      | some currentRound =>
        match currentRound.options.find? (fun o => o.id == optionId) with
        | none => .error { message := "Opción de voto inválida",
                           code := ERROR_CODES_VALIDATION_ERROR }
        | some _ =>
          if truthyStr (objGet currentRound.votes playerId) then
            .error { message := "Ya has votado",
                     code := ERROR_CODES_ALREADY_SUBMITTED }
          else
            let round2 := { currentRound with
              votes := objSet currentRound.votes playerId optionId }
            .ok { lobby with gameState := some { gs with
              rounds := updateRound gs.rounds gs.currentRound round2 } }

/-- Embeds `GameService.resetGame`. -/
def resetGame (lobby : Lobby) : Lobby :=
  { lobby with gameState := none, status := LobbyStatus.waiting, players := lobby.players.map (fun p => { p with score := 0, isReady := false }) }

/-! ## The team-consistency invariant (C8) -/

/-- Every id in a team list resolves to a player whose `team` field is
that team. -/
def TeamInv (l : Lobby) : Prop :=
  ∀ t : Team, ∀ id ∈ teamList l.teams t,
    lookupTeam l.players id = some (some t)

theorem find?_append_some {α} (p : α → Bool) (l l' : List α) (x : α)
    (h : l.find? p = some x) : (l ++ l').find? p = some x := by
  induction l with
  | nil => simp [List.find?] at h
  | cons a t ih =>
    cases ha : p a
    · rw [List.find?_cons_of_neg _ (by simp [ha])] at h
      rw [List.cons_append, List.find?_cons_of_neg _ (by simp [ha])]
      exact ih h
    · rw [List.find?_cons_of_pos _ (by simp [ha])] at h
      rw [List.cons_append, List.find?_cons_of_pos _ (by simp [ha])]
      exact h

theorem find?_append_cons_neg {α} (p : α → Bool) (A B : List α) (x : α)
    (hx : p x = false) : (A ++ x :: B).find? p = (A ++ B).find? p := by
  induction A with
  | nil =>
    simp only [List.nil_append]
    rw [List.find?_cons_of_neg _ (by simp [hx])]
  | cons a t ih =>
    cases ha : p a
    · rw [List.cons_append, List.cons_append,
        List.find?_cons_of_neg _ (by simp [ha]),
        List.find?_cons_of_neg _ (by simp [ha])]
      exact ih
    · rw [List.cons_append, List.cons_append,
        List.find?_cons_of_pos _ (by simp [ha]),
        List.find?_cons_of_pos _ (by simp [ha])]

theorem find?_append_cons_pos {α} (p : α → Bool) (A B : List α) (x : α)
    (hA : ∀ a ∈ A, p a = false) (hx : p x = true) :
    (A ++ x :: B).find? p = some x := by
  induction A with
  | nil =>
    simp only [List.nil_append]
    rw [List.find?_cons_of_pos _ (by simp [hx])]
  | cons a t ih =>
    rw [List.cons_append,
      List.find?_cons_of_neg _ (by simp [hA a (by simp)])]
    exact ih (fun b hb => hA b (by simp [hb]))

theorem extractFirst_spec (pred : Player → Bool) :
    ∀ (ps before after : List Player) (x : Player),
      extractFirst pred ps = some (before, x, after) →
      ps = before ++ x :: after ∧ (∀ b ∈ before, pred b = false) ∧
        pred x = true := by
  intro ps
  induction ps with
  | nil => intro before after x h; simp [extractFirst] at h
  | cons a t ih =>
    intro before after x h
    unfold extractFirst at h
    cases ha : pred a
    · rw [ha] at h
      simp only [Bool.false_eq_true, if_false] at h
      cases hrec : extractFirst pred t with
      | none => rw [hrec] at h; simp at h
      | some triple =>
        obtain ⟨b2, x2, a2⟩ := triple
        rw [hrec] at h
        simp only [Option.some.injEq, Prod.mk.injEq] at h
        obtain ⟨h1, h2, h3⟩ := h
        obtain ⟨hps, hbef, hx⟩ := ih b2 a2 x2 hrec
        subst h1; subst h2; subst h3
        refine ⟨by rw [hps]; rfl, ?_, hx⟩
        intro b hb
        rcases List.mem_cons.mp hb with hb | hb
        · subst hb; exact ha
        · exact hbef b hb
    · rw [ha] at h
      simp only [if_true] at h
      simp only [Option.some.injEq, Prod.mk.injEq] at h
      obtain ⟨h1, h2, h3⟩ := h
      subst h1; subst h2; subst h3
      exact ⟨rfl, by simp, ha⟩

theorem lookupTeam_append_some (ps qs : List Player) (x : String)
    (v : Option Team) (h : lookupTeam ps x = some v) :
    lookupTeam (ps ++ qs) x = some v := by
  unfold lookupTeam lookupPlayer at h ⊢
  cases hf : ps.find? (fun p => p.id == x) with
  | none => rw [hf] at h; simp at h
  | some p =>
    rw [hf] at h
    rw [find?_append_some _ _ _ _ hf]
    exact h

theorem lookupTeam_cons_mod (h0 : Player) (t : List Player)
    (f : Player → Player) (hfid : (f h0).id = h0.id)
    (hft : (f h0).team = h0.team) (x : String) :
    lookupTeam (f h0 :: t) x = lookupTeam (h0 :: t) x := by
  unfold lookupTeam lookupPlayer
  by_cases hx : h0.id = x
  · rw [List.find?_cons_of_pos _ (by simp [hfid, hx]),
      List.find?_cons_of_pos _ (by simp [hx])]
    simp [hft]
  · rw [List.find?_cons_of_neg _ (by simp [hfid, hx]),
      List.find?_cons_of_neg _ (by simp [hx])]

theorem lookupTeam_updFirstPlayer (ps : List Player) (pid : String)
    (f : Player → Player) (hfid : ∀ p, (f p).id = p.id)
    (hft : ∀ p, (f p).team = p.team) (x : String) :
    lookupTeam (updFirstPlayer ps pid f) x = lookupTeam ps x := by
  by_cases hx : x = pid
  · subst hx
    unfold lookupTeam
    rw [lookupPlayer_updFirstPlayer_same ps x f hfid]
    cases lookupPlayer ps x <;> simp [hft]
  · unfold lookupTeam
    rw [lookupPlayer_updFirstPlayer_other ps pid f hfid x hx]

theorem lookupTeam_updFirstBy (pred : Player → Bool) (f : Player → Player)
    (hfid : ∀ p, (f p).id = p.id) (hft : ∀ p, (f p).team = p.team) :
    ∀ (ps : List Player) (x : String),
      lookupTeam (updFirstBy pred f ps) x = lookupTeam ps x := by
  intro ps
  induction ps with
  | nil => intro x; rfl
  | cons p rest ih =>
    intro x
    unfold updFirstBy
    by_cases hp : pred p
    · rw [if_pos hp]
      exact lookupTeam_cons_mod p rest f (hfid p) (hft p) x
    · rw [if_neg hp]
      unfold lookupTeam lookupPlayer
      by_cases hx : p.id = x
      · rw [List.find?_cons_of_pos _ (by simp [hx]),
          List.find?_cons_of_pos _ (by simp [hx])]
      · rw [List.find?_cons_of_neg _ (by simp [hx]),
          List.find?_cons_of_neg _ (by simp [hx])]
        exact ih x

theorem lookupTeam_map (f : Player → Player)
    (hfid : ∀ p, (f p).id = p.id) (hft : ∀ p, (f p).team = p.team) :
    ∀ (ps : List Player) (x : String),
      lookupTeam (ps.map f) x = lookupTeam ps x := by
  intro ps
  induction ps with
  | nil => intro x; rfl
  | cons p rest ih =>
    intro x
    rw [List.map_cons]
    rw [lookupTeam_cons_mod p (rest.map f) f (hfid p) (hft p) x]
    unfold lookupTeam lookupPlayer
    by_cases hx : p.id = x
    · rw [List.find?_cons_of_pos _ (by simp [hx]),
        List.find?_cons_of_pos _ (by simp [hx])]
    · rw [List.find?_cons_of_neg _ (by simp [hx]),
        List.find?_cons_of_neg _ (by simp [hx])]
      exact ih x

theorem teamList_setTeamList_same (ts : Teams) (t : Team) (l : List String) :
    teamList (setTeamList ts t l) t = l := by
  cases t <;> rfl

theorem teamList_setTeamList_other (ts : Teams) (t t' : Team)
    (l : List String) (h : t' ≠ t) :
    teamList (setTeamList ts t l) t' = teamList ts t' := by
  cases t <;> cases t' <;> first | rfl | exact absurd rfl h

theorem mem_teamList_removeFromTeam (ts : Teams) (ot : Option Team)
    (pid : String) (t'' : Team) (id' : String)
    (h : id' ∈ teamList (removeFromTeam ts ot pid) t'') :
    id' ∈ teamList ts t'' := by
  cases ot with
  | none => exact h
  | some t0 =>
    by_cases ht : t'' = t0
    · subst ht
      simp only [removeFromTeam] at h
      rw [teamList_setTeamList_same] at h
      exact List.mem_of_mem_filter h
    · simp only [removeFromTeam] at h
      rw [teamList_setTeamList_other _ _ _ _ ht] at h
      exact h

theorem removeFromTeam_pid_mem (ts : Teams) (ot : Option Team)
    (pid : String) (t'' : Team)
    (h : pid ∈ teamList (removeFromTeam ts ot pid) t'') :
    pid ∈ teamList ts t'' ∧ ot ≠ some t'' := by
  cases ot with
  | none => exact ⟨h, by simp⟩
  | some t0 =>
    by_cases ht : t'' = t0
    · subst ht
      simp only [removeFromTeam] at h
      rw [teamList_setTeamList_same] at h
      have := (List.mem_filter.mp h).2
      simp at this
    · simp only [removeFromTeam] at h
      rw [teamList_setTeamList_other _ _ _ _ ht] at h
      refine ⟨h, ?_⟩
      intro hc
      exact ht (Option.some.inj hc).symm

theorem pid_not_mem_removeFromTeam (l : Lobby) (hinv : TeamInv l)
    (pid : String) (pt : Option Team)
    (hlook : lookupTeam l.players pid = some pt) (t'' : Team) :
    pid ∉ teamList (removeFromTeam l.teams pt pid) t'' := by
  intro hmem
  obtain ⟨hm, hne⟩ := removeFromTeam_pid_mem _ _ _ _ hmem
  have h1 := hinv t'' pid hm
  rw [hlook] at h1
  exact hne (Option.some.inj h1)

/-- Only the ids in the team lists matter, and only the (id → team)
resolution of each such id. -/
theorem TeamInv_mono (l l2 : Lobby) (ht : l2.teams = l.teams)
    (hp : ∀ x v, lookupTeam l.players x = some v →
      lookupTeam l2.players x = some v) :
    TeamInv l → TeamInv l2 := by
  intro hinv t id hid
  rw [ht] at hid
  exact hp id _ (hinv t id hid)

/-- One successful mutating operation of the lobby or game service. -/
inductive LobbyStep : Lobby → Lobby → Prop where
  | joinStep (l : Lobby) (name sid pid rid : String) (now : Nat) (l2 : Lobby)
      (hop : joinLobby l name sid pid now = Except.ok (l2, rid)) :
      LobbyStep l l2
  | selectTeamStep (l : Lobby) (pid : String) (t : Team) (now : Nat)
      (l2 : Lobby) (hop : selectTeam l pid t now = Except.ok l2) :
      LobbyStep l l2
  | toggleReadyStep (l : Lobby) (pid : String) (now : Nat) (l2 : Lobby)
      (hop : toggleReady l pid now = Except.ok l2) : LobbyStep l l2
  | leaveStep (l : Lobby) (pid : String) (now : Nat) (l2 : Lobby) (w : Bool)
      (hop : leaveLobby l pid now = (some l2, w)) : LobbyStep l l2
  | settingsStep (l : Lobby) (hid : String) (patch : GameSettingsPatch)
      (now : Nat) (l2 : Lobby)
      (hop : updateGameSettings l hid patch now = Except.ok l2) :
      LobbyStep l l2
  | socketStep (l : Lobby) (pid sid : String) (now : Nat) :
      LobbyStep l (updatePlayerSocket l pid sid now)
  | disconnectStep (l : Lobby) (sid : String) (now : Nat) :
      LobbyStep l (markPlayerDisconnected l sid now)
  | startGameStep (l : Lobby) (sel : SelectorState) (l2 : Lobby)
      (sel2 : SelectorState) (res : Except GameError BullGameState)
      (hop : startGame l sel = (l2, sel2, res)) : LobbyStep l l2
  | startRoundStep (l : Lobby) (sel : SelectorState) (n : Nat) (rb rr : ℚ)
      (now : Nat) (l2 : Lobby) (sel2 : SelectorState)
      (res : Except ThrownError BullRound)
      (hop : startRound l sel n rb rr now = (l2, sel2, res)) : LobbyStep l l2
  | submitAnswerStep (l : Lobby) (pid ans : String) (l2 : Lobby)
      (hop : submitAnswer l pid ans = Except.ok l2) : LobbyStep l l2
  | markReadyStep (l : Lobby) (pid : String) (l2 : Lobby)
      (hop : markPlayerReady l pid = Except.ok l2) : LobbyStep l l2
  | prepareStep (l : Lobby) (uuid : Nat → String) (rnd : Nat → Nat)
      (l2 : Lobby) (opts : List RoundOption)
      (hop : prepareVotingOptions l uuid rnd = Except.ok (l2, opts)) :
      LobbyStep l l2
  | voteStep (l : Lobby) (pid oid : String) (l2 : Lobby)
      (hop : submitVote l pid oid = Except.ok l2) : LobbyStep l l2
  | resultsStep (l : Lobby) (now : Nat) (l2 : Lobby) (res : RoundResult)
      (hop : calculateRoundResults l now = Except.ok (l2, res)) :
      LobbyStep l l2
  | finishStep (l : Lobby) (l2 : Lobby) (w : Team) (sc : Scores)
      (hop : finishGame l = Except.ok (l2, w, sc)) : LobbyStep l l2
  | resetStep (l : Lobby) : LobbyStep l (resetGame l)

/-- Lobby states reachable through any sequence of service operations. -/
def Reachable (l0 l : Lobby) : Prop :=
  Relation.ReflTransGen LobbyStep l0 l

theorem TeamInv_step (l b : Lobby) (h : LobbyStep l b) (hinv : TeamInv l) :
    TeamInv b := by
  cases h with
  | joinStep name sid pid rid now l2 hop =>
    unfold joinLobby at hop
    repeat' split at hop
    all_goals
      first
      | exact Except.noConfusion hop
      | (simp only [Except.ok.injEq, Prod.mk.injEq] at hop
         obtain ⟨h1, h2⟩ := hop
         subst h1
         exact TeamInv_mono l _ rfl
           (fun x v hv => lookupTeam_append_some l.players _ x v hv) hinv)
  | selectTeamStep pid t now l2 hop =>
    unfold selectTeam at hop
    split at hop
    · exact Except.noConfusion hop
    · rename_i player heq
      split at hop
      · exact Except.noConfusion hop
      · split at hop
        · exact Except.noConfusion hop
        · simp only [Except.ok.injEq] at hop
          subst hop
          have hlookpid : lookupTeam l.players pid = some player.team := by
            unfold lookupTeam
            rw [heq]
            rfl
          have hnew : lookupTeam (updFirstPlayer l.players pid
              (fun p => { p with team := some t })) pid = some (some t) := by
            unfold lookupTeam
            rw [lookupPlayer_updFirstPlayer_same l.players pid
              (fun p => { p with team := some t }) (fun p => rfl), heq]
            rfl
          have hother : ∀ x, x ≠ pid → lookupTeam (updFirstPlayer l.players
              pid (fun p => { p with team := some t })) x =
              lookupTeam l.players x := by
            intro x hx
            unfold lookupTeam
            rw [lookupPlayer_updFirstPlayer_other l.players pid
              (fun p => { p with team := some t }) (fun p => rfl) x hx]
          intro t' id hid
          dsimp only at hid ⊢
          by_cases ht' : t' = t
          · subst ht'
            rw [teamList_setTeamList_same] at hid
            rcases List.mem_append.mp hid with hidL | hidR
            · have hne : id ≠ pid := by
                intro he
                subst he
                exact pid_not_mem_removeFromTeam l hinv id player.team
                  hlookpid t' hidL
              rw [hother id hne]
              exact hinv t' id (mem_teamList_removeFromTeam _ _ _ _ _ hidL)
            · have hidp : id = pid := by simpa using hidR
              subst hidp
              exact hnew
          · rw [teamList_setTeamList_other _ _ _ _ ht'] at hid
            have hne : id ≠ pid := by
              intro he
              subst he
              exact pid_not_mem_removeFromTeam l hinv id player.team
                hlookpid t' hid
            rw [hother id hne]
            exact hinv t' id (mem_teamList_removeFromTeam _ _ _ _ _ hid)
  | toggleReadyStep pid now l2 hop =>
    unfold toggleReady at hop
    repeat' split at hop
    all_goals
      first
      | exact Except.noConfusion hop
      | (simp only [Except.ok.injEq] at hop
         subst hop
         exact TeamInv_mono l _ rfl
           (fun x v hv => by
             dsimp only
             rw [lookupTeam_updFirstPlayer l.players pid
               (fun p => { p with isReady := !p.isReady })
               (fun p => rfl) (fun p => rfl) x]
             exact hv) hinv)
  | leaveStep pid now l2 w hop =>
    unfold leaveLobby at hop
    split at hop
    · simp only [Prod.mk.injEq, Option.some.injEq] at hop
      obtain ⟨h1, h2⟩ := hop
      subst h1
      exact hinv
    · rename_i before x after heq
      split at hop
      · simp at hop
      · rename_i h0 tl heq2
        obtain ⟨hps, hbef, hx⟩ := extractFirst_spec (fun p => p.id == pid)
          l.players before after x heq
        have hxid : x.id = pid := by simpa using hx
        have hlookpid : lookupTeam l.players pid = some x.team := by
          unfold lookupTeam lookupPlayer
          rw [hps, find?_append_cons_pos _ _ _ _ (fun b hb => hbef b hb) hx]
          rfl
        have hpres : ∀ id, id ≠ pid →
            lookupTeam (before ++ after) id = lookupTeam l.players id := by
          intro id hne
          unfold lookupTeam lookupPlayer
          rw [hps, find?_append_cons_neg (fun p => p.id == id) before after x
            (by show (x.id == id) = false
                rw [hxid]
                exact beq_eq_false_iff_ne.mpr (Ne.symm hne))]
        have hnotpid : ∀ t'', pid ∉ teamList
            (removeFromTeam l.teams x.team pid) t'' :=
          pid_not_mem_removeFromTeam l hinv pid x.team hlookpid
        split at hop
        · simp only [Prod.mk.injEq, Option.some.injEq] at hop
          obtain ⟨h1, h2⟩ := hop
          subst h1
          intro t' id hid
          dsimp only at hid ⊢
          have hne : id ≠ pid := fun he => hnotpid t' (he ▸ hid)
          have hmem := mem_teamList_removeFromTeam _ _ _ _ _ hid
          rw [lookupTeam_cons_mod h0 tl (fun p => { p with isHost := true })
            rfl rfl id]
          rw [← heq2]
          rw [hpres id hne]
          exact hinv t' id hmem
        · simp only [Prod.mk.injEq, Option.some.injEq] at hop
          obtain ⟨h1, h2⟩ := hop
          subst h1
          intro t' id hid
          dsimp only at hid ⊢
          have hne : id ≠ pid := fun he => hnotpid t' (he ▸ hid)
          have hmem := mem_teamList_removeFromTeam _ _ _ _ _ hid
          rw [hpres id hne]
          exact hinv t' id hmem
  | settingsStep hid patch now l2 hop =>
    unfold updateGameSettings at hop
    repeat' split at hop
    all_goals
      first
      | exact Except.noConfusion hop
      | (simp only [Except.ok.injEq] at hop
         subst hop
         exact TeamInv_mono l _ rfl (fun x v hv => hv) hinv)
  | socketStep pid sid now =>
    unfold updatePlayerSocket
    split
    · exact hinv
    · exact TeamInv_mono l _ rfl
        (fun x v hv => by
          dsimp only
          rw [lookupTeam_updFirstPlayer l.players pid
            (fun p => { p with socketId := sid, isConnected := true })
            (fun p => rfl) (fun p => rfl) x]
          exact hv) hinv
  | disconnectStep sid now =>
    unfold markPlayerDisconnected
    split
    · exact hinv
    · exact TeamInv_mono l _ rfl
        (fun x v hv => by
          dsimp only
          rw [lookupTeam_updFirstBy (fun p => p.socketId == sid)
            (fun p => { p with isConnected := false })
            (fun p => rfl) (fun p => rfl) l.players x]
          exact hv) hinv
  | startGameStep sel l2 sel2 res hop =>
    unfold startGame at hop
    repeat' split at hop
    all_goals
      (simp only [Prod.mk.injEq] at hop
       obtain ⟨h1, h2, h3⟩ := hop
       subst h1
       exact hinv)
  | startRoundStep sel n rb rr now l2 sel2 res hop =>
    unfold startRound at hop
    repeat' (first | split at hop | simp only [] at hop)
    all_goals
      (simp only [Prod.mk.injEq] at hop
       obtain ⟨h1, h2, h3⟩ := hop
       subst h1
       exact hinv)
  | submitAnswerStep pid ans l2 hop =>
    unfold submitAnswer at hop
    repeat' (first | split at hop | simp only [] at hop)
    all_goals
      first
      | exact Except.noConfusion hop
      | (simp only [Except.ok.injEq] at hop
         subst hop
         exact TeamInv_mono l _ rfl (fun x v hv => hv) hinv)
  | markReadyStep pid l2 hop =>
    unfold markPlayerReady at hop
    repeat' (first | split at hop | simp only [] at hop)
    all_goals
      first
      | exact Except.noConfusion hop
      | (simp only [Except.ok.injEq] at hop
         subst hop
         exact TeamInv_mono l _ rfl (fun x v hv => hv) hinv)
  | prepareStep uuid rnd l2 opts hop =>
    unfold prepareVotingOptions at hop
    repeat' (first | split at hop | simp only [] at hop)
    all_goals
      first
      | exact Except.noConfusion hop
      | (simp only [Except.ok.injEq, Prod.mk.injEq] at hop
         obtain ⟨h1, h2⟩ := hop
         subst h1
         exact TeamInv_mono l _ rfl (fun x v hv => hv) hinv)
  | voteStep pid oid l2 hop =>
    unfold submitVote at hop
    repeat' (first | split at hop | simp only [] at hop)
    all_goals
      first
      | exact Except.noConfusion hop
      | (simp only [Except.ok.injEq] at hop
         subst hop
         exact TeamInv_mono l _ rfl (fun x v hv => hv) hinv)
  | resultsStep now l2 res hop =>
    unfold calculateRoundResults at hop
    repeat' (first | split at hop | simp only [] at hop)
    all_goals
      first
      | exact Except.noConfusion hop
      | (simp only [Except.ok.injEq, Prod.mk.injEq] at hop
         obtain ⟨h1, h2⟩ := hop
         subst h1
         refine TeamInv_mono l _ rfl ?_ hinv
         intro x v hv
         dsimp only
         rw [calcPhase2_lookupTeam]
         unfold calcPhase1
         rw [foldl_processVote_lookupTeam]
         exact hv)
  | finishStep l2 w sc hop =>
    unfold finishGame at hop
    repeat' split at hop
    all_goals
      first
      | exact Except.noConfusion hop
      | (simp only [Except.ok.injEq, Prod.mk.injEq] at hop
         obtain ⟨h1, h2, h3⟩ := hop
         subst h1
         exact TeamInv_mono l _ rfl (fun x v hv => hv) hinv)
  | resetStep =>
    exact TeamInv_mono l _ rfl
      (fun x v hv => by
        dsimp only [resetGame]
        rw [lookupTeam_map (fun p => { p with score := 0, isReady := false })
          (fun p => rfl) (fun p => rfl) l.players x]
        exact hv) hinv

/--
C8: in every lobby state reachable from a freshly created lobby by any
sequence of service operations (joinLobby, selectTeam, toggleReady,
leaveLobby, updateGameSettings, updatePlayerSocket,
markPlayerDisconnected, startGame, startRound, submitAnswer,
markPlayerReady, prepareVotingOptions, submitVote, calculateRoundResults,
finishGame, resetGame), no player id appears in both `teams.blue` and
`teams.red`, and every id in a team list resolves to a player whose
`team` field is that team.
-/
theorem C8_team_invariant (socketId lobbyCode hostId : String) (now0 : Nat)
    (l : Lobby)
    (hreach : Reachable (createLobby socketId lobbyCode hostId now0).1 l) :
    (∀ id, id ∈ l.teams.blue → id ∈ l.teams.red → False) ∧
    (∀ id ∈ l.teams.blue, ∃ p, lookupPlayer l.players id = some p ∧
      p.team = some Team.blue) ∧
    (∀ id ∈ l.teams.red, ∃ p, lookupPlayer l.players id = some p ∧
      p.team = some Team.red) := by
  have hinv : TeamInv l := by
    unfold Reachable at hreach
    induction hreach with
    | refl =>
      intro t id hid
      cases t <;> simp [createLobby, teamList] at hid
    | tail hsteps hstep ih => exact TeamInv_step _ _ hstep ih
  refine ⟨?_, ?_, ?_⟩
  · intro id hb hr
    have h1 := hinv Team.blue id hb
    have h2 := hinv Team.red id hr
    rw [h1] at h2
    simp at h2
  · intro id hb
    have h1 := hinv Team.blue id hb
    unfold lookupTeam at h1
    cases hlp : lookupPlayer l.players id with
    | none => rw [hlp] at h1; simp at h1
    | some p =>
      rw [hlp] at h1
      refine ⟨p, rfl, ?_⟩
      simpa using h1
  · intro id hr
    have h1 := hinv Team.red id hr
    unfold lookupTeam at h1
    cases hlp : lookupPlayer l.players id with
    | none => rw [hlp] at h1; simp at h1
    | some p =>
      rw [hlp] at h1
      refine ⟨p, rfl, ?_⟩
      simpa using h1

/-- Witness for C8: the freshly created lobby is reachable (by the empty
operation sequence) and satisfies the invariant. -/
theorem C8_witness :
    (∀ id, id ∈ ((createLobby "s0" "ABCDEF" "host-1" 0).1).teams.blue →
      id ∈ ((createLobby "s0" "ABCDEF" "host-1" 0).1).teams.red → False) ∧
    (∀ id ∈ ((createLobby "s0" "ABCDEF" "host-1" 0).1).teams.blue,
      ∃ p, lookupPlayer ((createLobby "s0" "ABCDEF" "host-1" 0).1).players
        id = some p ∧ p.team = some Team.blue) ∧
    (∀ id ∈ ((createLobby "s0" "ABCDEF" "host-1" 0).1).teams.red,
      ∃ p, lookupPlayer ((createLobby "s0" "ABCDEF" "host-1" 0).1).players
        id = some p ∧ p.team = some Team.red) :=
  C8_team_invariant "s0" "ABCDEF" "host-1" 0 _ Relation.ReflTransGen.refl

end Bull
